import Mathlib

/-! # TAM-MAM: the ingest pipeline and the media processor

A shallow embedding of `core/service.go` (`src/mam-core.go`), of
`processor/media_processor.go` (`src/mam-media-processor.go`) and of the query
builder of `db/metadata_search.go` (`src/mam-database.go`).

The Go code talks to a database, a cache, the TAMS registry, object storage and
external tools.  Those collaborators are fields of the `Service` and
`MediaProcessor` records below: each field gives the outcome of the call, and
every function of the embedding returns, next to its Go result, the list of
collaborator calls it made, in program order.
-/

namespace TamMam

/-! ## Go errors -/

/-- A Go `error` value: a plain error carrying its text, or the value built by
`fmt.Errorf` with a `%w` verb, which carries the formatted text and the wrapped
error. -/
inductive GoError where
  | errorString (s : String)
  | wrapError (msg : String) (err : GoError)
  deriving DecidableEq, Repr

/-- The `Error()` method: the text of the error. -/
def GoError.Error : GoError → String
  | .errorString s => s
  | .wrapError msg _ => msg

/-- The `Unwrap()` method: the error wrapped by `%w`, when there is one. -/
def GoError.Unwrap : GoError → Option GoError
  | .errorString _ => none
  | .wrapError _ err => some err

/-- The call `fmt.Errorf(pre + "%w", err)`: the text is `pre` followed by the
text of `err`, and `err` is kept as the wrapped error. -/
def Errorf (pre : String) (err : GoError) : GoError :=
  .wrapError (pre ++ err.Error) err

/-- A `context.Context` as far as this code tells contexts apart: the root
`context.Background()` or the context of a caller's request, live or already
cancelled. -/
inductive Context where
  | background
  | request (cancelled : Bool)
  deriving DecidableEq, Repr

/-! ## Data of `core/service.go` -/

/-- The fields of `Asset` that `core/service.go` reads or writes.
`Metadata` is a `json.RawMessage`, a slice of bytes. -/
structure Asset where
  ID : String
  Title : String
  Description : String
  Type_ : String
  Status : String
  Metadata : List UInt8
  CreatedBy : String
  deriving DecidableEq, Repr

structure IngestRequest where
  Title : String
  Description : String
  Type_ : String
  UserID : String
  Metadata : List UInt8
  SourcePath : String
  deriving DecidableEq, Repr

structure TAMSSourceRequest where
  Label : String
  Format : String
  Description : String
  deriving DecidableEq, Repr

structure TAMSFlowRequest where
  SourceID : String
  Label : String
  Format : String
  Description : String
  deriving DecidableEq, Repr

structure ProcessRequest where
  AssetID : String
  SourcePath : String
  FlowID : String
  deriving DecidableEq, Repr

/-- The map literal `errorInfo` of `handleIngestError`, with its three keys. -/
structure ErrorInfo where
  error_message : String
  error_detail : String
  error_time : Nat
  deriving DecidableEq, Repr

/-! ## Data of `processor/media_processor.go` -/

structure ProxyFormat where
  Name : String
  Width : Int
  Height : Int
  Bitrate : String
  Codec : String
  deriving DecidableEq, Repr

structure ProcessorConfig where
  WorkDir : String
  ProxyFormats : List ProxyFormat
  SegmentDuration : Int
  MaxConcurrent : Int
  FFmpegPath : String
  deriving DecidableEq, Repr

/-- The value returned by `AllocateStorage`; the code reads `PutURL` and
`ObjectID`. -/
structure StorageInfo where
  PutURL : String
  ObjectID : String
  deriving DecidableEq, Repr

structure TAMSSegment where
  ObjectID : String
  TimeRange : String
  deriving DecidableEq, Repr

/-! ## Collaborator calls -/

deriving instance DecidableEq for Except

/-- One call made by the processor package, with its arguments and, for a call
that can fail, its outcome (`none` is a nil error). -/
inductive ProcEvent where
  | osMkdirAll (path : String) (res : Option GoError)
  | osRemoveAll (path : String)
  | cmdRun (name : String) (args : List String) (res : Option GoError)
  | cmdOutput (name : String) (args : List String) (res : Except GoError String)
  | jsonUnmarshal (data : String) (res : Option GoError)
  | filepathGlob (pattern : String) (res : Except GoError (List String))
  | tamsAllocateStorage (flowID : String) (res : Except GoError StorageInfo)
  | storageUploadSegment (segment putURL : String) (res : Option GoError)
  | tamsRegisterSegment (flowID : String) (seg : TAMSSegment) (res : Option GoError)
  deriving DecidableEq

/-- One call made by the core service, with its arguments and, for a call that
can fail, its outcome.  A call of the processing stage carries the calls the
stage made while it ran. -/
inductive Event where
  | dbCreateAsset (asset : Asset) (res : Except GoError String)
  | dbUpdateAssetStatus (assetID status : String) (res : Option GoError)
  | dbUpdateAssetTAMSInfo (assetID sourceID flowID : String) (res : Option GoError)
  | dbUpdateAssetErrorInfo (assetID : String) (errorInfo : ErrorInfo) (res : Option GoError)
  | cacheDel (key : String)
  | tamsCreateSource (req : TAMSSourceRequest) (res : Except GoError String)
  | tamsCreateFlow (req : TAMSFlowRequest) (res : Except GoError String)
  | processMedia (req : ProcessRequest) (calls : List ProcEvent) (res : Option GoError)
  | logPrintf (line : String)
  | goProcessIngest (ctx : Context) (assetID : String) (req : IngestRequest)
  deriving DecidableEq

/-! ## `core/service.go` -/

/-- The `Service` of `core/service.go`: its collaborators, each given by the
outcome of its calls.  `db.CreateAsset` receives a pointer to the asset and the
code reads `asset.ID` afterwards; following the store contract
`createAsset(Asset) → id | error`, the field returns the identifier the store
assigned.  The bodies of `CreateSource`, `CreateFlow` and of the `ProcessMedia`
of this package are elided in the source, so they are fields too; the
processing stage also reports the calls it made while it ran.  `timeNow` is the reading of
`time.Now()`. -/
structure Service where
  dbCreateAsset : Context → Asset → Except GoError String
  dbUpdateAssetStatus : Context → String → String → Option GoError
  dbUpdateAssetTAMSInfo : Context → String → String → String → Option GoError
  dbUpdateAssetErrorInfo : Context → String → ErrorInfo → Option GoError
  tamsCreateSource : Context → TAMSSourceRequest → Except GoError String
  tamsCreateFlow : Context → TAMSFlowRequest → Except GoError String
  processMedia : Context → ProcessRequest → List ProcEvent × Option GoError
  timeNow : Nat

def StateNew : String := "new"
def StateIngesting : String := "ingesting"
def StateProcessing : String := "processing"
def StateReady : String := "ready"
def StateFailed : String := "failed"

def mapTypeToTAMSFormat (assetType : String) : String :=
  if assetType = "video" then "urn:x-nmos:format:video"
  else if assetType = "audio" then "urn:x-nmos:format:audio"
  else if assetType = "data" then "urn:x-nmos:format:data"
  else "urn:x-nmos:format:data"

/-- The method `updateAssetStatus`: the store write, then, only when the write
returned no error, the deletion of the cache key `asset:<id>`. -/
def updateAssetStatus (s : Service) (ctx : Context) (assetID status : String) :
    List Event × Option GoError :=
  match s.dbUpdateAssetStatus ctx assetID status with
  | some err =>
    ([Event.dbUpdateAssetStatus assetID status (some err)],
      some (Errorf "failed to update asset status: " err))
  | none =>
    ([Event.dbUpdateAssetStatus assetID status none, Event.cacheDel ("asset:" ++ assetID)],
      none)

/-- The method `handleIngestError`: log line, status `failed` (the result of
`updateAssetStatus` is dropped), then the diagnostic write (its result is
dropped too). -/
def handleIngestError (s : Service) (ctx : Context) (assetID message : String)
    (err : GoError) : List Event :=
  let errorInfo : ErrorInfo :=
    { error_message := message, error_detail := err.Error, error_time := s.timeNow }
  [Event.logPrintf ("Ingest error for asset " ++ assetID ++ ": " ++ message ++ " - " ++ err.Error)]
    ++ (updateAssetStatus s ctx assetID StateFailed).1
    ++ [Event.dbUpdateAssetErrorInfo assetID errorInfo
          (s.dbUpdateAssetErrorInfo ctx assetID errorInfo)]

/-- The method `processIngest`; it returns nothing, so the embedding returns
the calls it made. -/
def processIngest (s : Service) (ctx : Context) (assetID : String) (req : IngestRequest) :
    List Event :=
  let t0 := (updateAssetStatus s ctx assetID StateIngesting).1
  let sourceReq : TAMSSourceRequest :=
    { Label := req.Title, Format := mapTypeToTAMSFormat req.Type_, Description := req.Description }
  match s.tamsCreateSource ctx sourceReq with
  | .error err =>
    t0 ++ [Event.tamsCreateSource sourceReq (.error err)]
      ++ handleIngestError s ctx assetID "failed to create TAMS source" err
  | .ok sourceID =>
    let flowReq : TAMSFlowRequest :=
      { SourceID := sourceID, Label := req.Title, Format := mapTypeToTAMSFormat req.Type_,
        Description := req.Description }
    match s.tamsCreateFlow ctx flowReq with
    | .error err =>
      t0 ++ [Event.tamsCreateSource sourceReq (.ok sourceID),
             Event.tamsCreateFlow flowReq (.error err)]
        ++ handleIngestError s ctx assetID "failed to create TAMS flow" err
    | .ok flowID =>
      match s.dbUpdateAssetTAMSInfo ctx assetID sourceID flowID with
      | some err =>
        t0 ++ [Event.tamsCreateSource sourceReq (.ok sourceID),
               Event.tamsCreateFlow flowReq (.ok flowID),
               Event.dbUpdateAssetTAMSInfo assetID sourceID flowID (some err)]
          ++ handleIngestError s ctx assetID "failed to update asset TAMS info" err
      | none =>
        let t1 := (updateAssetStatus s ctx assetID StateProcessing).1
        let procReq : ProcessRequest :=
          { AssetID := assetID, SourcePath := req.SourcePath, FlowID := flowID }
        let stage := s.processMedia ctx procReq
        let t2 := t0 ++ [Event.tamsCreateSource sourceReq (.ok sourceID),
               Event.tamsCreateFlow flowReq (.ok flowID),
               Event.dbUpdateAssetTAMSInfo assetID sourceID flowID none]
          ++ t1 ++ [Event.processMedia procReq stage.1 stage.2]
        match stage.2 with
        | some err => t2 ++ handleIngestError s ctx assetID "failed to process media" err
        | none => t2 ++ (updateAssetStatus s ctx assetID StateReady).1

/-- The method `IngestAsset`.  The `go` statement is recorded as the call
`goProcessIngest` with the arguments the new goroutine receives. -/
def IngestAsset (s : Service) (ctx : Context) (req : IngestRequest) :
    List Event × Except GoError Asset :=
  let asset : Asset :=
    { ID := "", Title := req.Title, Description := req.Description, Type_ := req.Type_,
      Status := StateNew, Metadata := req.Metadata, CreatedBy := req.UserID }
  match s.dbCreateAsset ctx asset with
  | .error err =>
    ([Event.dbCreateAsset asset (.error err)], .error (Errorf "failed to create asset: " err))
  | .ok id =>
    let created : Asset := { asset with ID := id }
    ([Event.dbCreateAsset asset (.ok id),
      Event.goProcessIngest Context.background created.ID req], .ok created)

/-! ## `processor/media_processor.go` -/

/-- A `time.Duration` is an `int64` count of nanoseconds: arithmetic on it
wraps around modulo `2^64`. -/
def int64 (x : Int) : Int := (x + 2 ^ 63) % 2 ^ 64 - 2 ^ 63

/-- The constant `time.Second`, in nanoseconds. -/
def Second : Int := 1000000000

/-- The expression `time.Duration(i) * time.Second * time.Duration(duration)`,
evaluated left to right on `int64`. -/
def segmentTime (i : Nat) (duration : Int) : Int :=
  int64 (int64 (int64 (i : Int) * Second) * int64 duration)

structure Transcoder where
  ffmpegPath : String
  deriving DecidableEq, Repr

structure MediaMetadata where
  Duration : Float
  Format : String
  Codec : String
  Width : Int
  Height : Int
  Framerate : String
  Bitrate : Int
  AudioCodec : String
  AudioRate : Int
  AudioLayout : String

/-- The `MediaProcessor` of `processor/media_processor.go`: its configuration
and transcoder, and the outcome of every call that leaves the package.
`filepathJoin` is `filepath.Join` and `durationString` is the text `%v` prints
for a `time.Duration`.  A call made inside a loop receives the loop index, so
that its outcome may differ from one iteration to the next; `cmdRun` outside a
loop receives index 0, and a command started without a context receives
`none`. -/
structure MediaProcessor where
  config : ProcessorConfig
  transcoder : Transcoder
  filepathJoin : String → String → String
  durationString : Int → String
  osMkdirAll : String → Option GoError
  cmdRun : Nat → Option Context → String → List String → Option GoError
  cmdOutput : String → List String → Except GoError String
  jsonUnmarshal : String → Option GoError
  filepathGlob : String → Except GoError (List String)
  tamsAllocateStorage : Nat → Context → String → Except GoError StorageInfo
  storageUploadSegment : Nat → Context → String → String → Option GoError
  tamsRegisterSegment : Nat → Context → String → TAMSSegment → Option GoError

/-- The method `Transcoder.CreateProxy`, for the rendition at index `k`. -/
def Transcoder.CreateProxy (t : Transcoder) (p : MediaProcessor) (k : Nat) (ctx : Context)
    (input output : String) (format : ProxyFormat) : List ProcEvent × Option GoError :=
  let args : List String :=
    ["-i", input, "-c:v", format.Codec, "-b:v", format.Bitrate,
     "-vf", "scale=" ++ toString format.Width ++ ":" ++ toString format.Height,
     "-y", output]
  let res := p.cmdRun k (some ctx) t.ffmpegPath args
  ([ProcEvent.cmdRun t.ffmpegPath args res], res)

/-- The method `Transcoder.Segment`. -/
def Transcoder.Segment (t : Transcoder) (p : MediaProcessor) (ctx : Context)
    (input segmentPattern : String) (duration : Int) : List ProcEvent × Option GoError :=
  let args : List String :=
    ["-i", input, "-c", "copy", "-f", "segment", "-segment_time", toString duration,
     "-reset_timestamps", "1", segmentPattern]
  let res := p.cmdRun 0 (some ctx) t.ffmpegPath args
  ([ProcEvent.cmdRun t.ffmpegPath args res], res)

/-- The method `MetadataExtractor.Extract`; on success it returns a
`MediaMetadata` whose fields all have their zero value. -/
def Extract (p : MediaProcessor) (filepath : String) :
    List ProcEvent × Except GoError MediaMetadata :=
  let args : List String :=
    ["-v", "quiet", "-print_format", "json", "-show_format", "-show_streams", filepath]
  match p.cmdOutput "ffprobe" args with
  | .error err =>
    ([ProcEvent.cmdOutput "ffprobe" args (.error err)], .error (Errorf "ffprobe failed: " err))
  | .ok output =>
    match p.jsonUnmarshal output with
    | some err =>
      ([ProcEvent.cmdOutput "ffprobe" args (.ok output), ProcEvent.jsonUnmarshal output (some err)],
        .error (Errorf "failed to parse ffprobe output: " err))
    | none =>
      ([ProcEvent.cmdOutput "ffprobe" args (.ok output), ProcEvent.jsonUnmarshal output none],
        .ok { Duration := 0, Format := "", Codec := "", Width := 0, Height := 0,
              Framerate := "", Bitrate := 0, AudioCodec := "", AudioRate := 0,
              AudioLayout := "" })

/-- The method `generateThumbnails`. -/
def generateThumbnails (p : MediaProcessor) (input workDir : String) :
    List ProcEvent × Except GoError String :=
  let thumbnailPath := p.filepathJoin workDir "thumbnail.jpg"
  let args : List String :=
    ["-i", input, "-vf", "thumbnail,scale=640:360", "-frames:v", "1", thumbnailPath]
  match p.cmdRun 0 none p.config.FFmpegPath args with
  | some err =>
    ([ProcEvent.cmdRun p.config.FFmpegPath args (some err)],
      .error (Errorf "failed to generate thumbnail: " err))
  | none => ([ProcEvent.cmdRun p.config.FFmpegPath args none], .ok thumbnailPath)

/-- The loop of `createProxies` from rendition index `k` on, `proxyPaths` being
the map built so far (a list of name and path, the latest entry of a name
first). -/
def createProxiesLoop (p : MediaProcessor) (ctx : Context) (input workDir : String) :
    Nat → List ProxyFormat → List (String × String) →
      List ProcEvent × Except GoError (List (String × String))
  | _, [], proxyPaths => ([], .ok proxyPaths)
  | k, format :: rest, proxyPaths =>
    let outputPath := p.filepathJoin workDir ("proxy_" ++ format.Name ++ ".mp4")
    let call := p.transcoder.CreateProxy p k ctx input outputPath format
    match call.2 with
    | some err => (call.1, .error (Errorf ("failed to create " ++ format.Name ++ " proxy: ") err))
    | none =>
      let next := createProxiesLoop p ctx input workDir (k + 1) rest
        ((format.Name, outputPath) :: proxyPaths.filter (fun e => e.1 ≠ format.Name))
      (call.1 ++ next.1, next.2)

/-- The method `createProxies`. -/
def createProxies (p : MediaProcessor) (ctx : Context) (input workDir : String) :
    List ProcEvent × Except GoError (List (String × String)) :=
  createProxiesLoop p ctx input workDir 0 p.config.ProxyFormats []

/-- The loop `for i, segment := range segments` of `segmentAndUpload`, from
index `i` on. -/
def segmentLoop (p : MediaProcessor) (ctx : Context) (flowID : String) :
    Nat → List String → List ProcEvent × Option GoError
  | _, [] => ([], none)
  | i, segment :: rest =>
    match p.tamsAllocateStorage i ctx flowID with
    | .error err =>
      ([ProcEvent.tamsAllocateStorage flowID (.error err)],
        some (Errorf "failed to allocate storage: " err))
    | .ok storageInfo =>
      match p.storageUploadSegment i ctx segment storageInfo.PutURL with
      | some err =>
        ([ProcEvent.tamsAllocateStorage flowID (.ok storageInfo),
          ProcEvent.storageUploadSegment segment storageInfo.PutURL (some err)],
          some (Errorf "failed to upload segment: " err))
      | none =>
        let startTime := segmentTime i p.config.SegmentDuration
        let endTime := segmentTime (i + 1) p.config.SegmentDuration
        let seg : TAMSSegment :=
          { ObjectID := storageInfo.ObjectID,
            TimeRange := p.durationString startTime ++ ":" ++ p.durationString endTime }
        match p.tamsRegisterSegment i ctx flowID seg with
        | some err =>
          ([ProcEvent.tamsAllocateStorage flowID (.ok storageInfo),
            ProcEvent.storageUploadSegment segment storageInfo.PutURL none,
            ProcEvent.tamsRegisterSegment flowID seg (some err)],
            some (Errorf "failed to register segment: " err))
        | none =>
          let next := segmentLoop p ctx flowID (i + 1) rest
          ([ProcEvent.tamsAllocateStorage flowID (.ok storageInfo),
            ProcEvent.storageUploadSegment segment storageInfo.PutURL none,
            ProcEvent.tamsRegisterSegment flowID seg none] ++ next.1, next.2)

/-- The part of `segmentAndUpload` that runs once `defer os.RemoveAll(segmentDir)`
is in place. -/
def segmentAndUploadBody (p : MediaProcessor) (ctx : Context) (input flowID segmentDir : String) :
    List ProcEvent × Option GoError :=
  let segmentPattern := p.filepathJoin segmentDir "segment_%04d.ts"
  let seg := p.transcoder.Segment p ctx input segmentPattern p.config.SegmentDuration
  match seg.2 with
  | some err => (seg.1, some (Errorf "failed to segment file: " err))
  | none =>
    let pattern := p.filepathJoin segmentDir "segment_*.ts"
    match p.filepathGlob pattern with
    | .error err =>
      (seg.1 ++ [ProcEvent.filepathGlob pattern (.error err)],
        some (Errorf "failed to list segments: " err))
    | .ok segments =>
      let loop := segmentLoop p ctx flowID 0 segments
      (seg.1 ++ [ProcEvent.filepathGlob pattern (.ok segments)] ++ loop.1, loop.2)

/-- The method `segmentAndUpload`; the deferred `os.RemoveAll(segmentDir)` is
the last call on every path that passed the `defer` statement. -/
def segmentAndUpload (p : MediaProcessor) (ctx : Context) (input flowID : String)
    (_metadata : MediaMetadata) : List ProcEvent × Option GoError :=
  let segmentDir := p.filepathJoin p.config.WorkDir "segments"
  match p.osMkdirAll segmentDir with
  | some err =>
    ([ProcEvent.osMkdirAll segmentDir (some err)],
      some (Errorf "failed to create segment directory: " err))
  | none =>
    let body := segmentAndUploadBody p ctx input flowID segmentDir
    ([ProcEvent.osMkdirAll segmentDir none] ++ body.1 ++ [ProcEvent.osRemoveAll segmentDir], body.2)

/-- The part of `ProcessMedia` that runs once `defer os.RemoveAll(workDir)` is
in place. -/
def ProcessMediaBody (p : MediaProcessor) (ctx : Context) (req : ProcessRequest)
    (workDir : String) : List ProcEvent × Option GoError :=
  let ext := Extract p req.SourcePath
  match ext.2 with
  | .error err => (ext.1, some (Errorf "failed to extract metadata: " err))
  | .ok metadata =>
    let thumb := generateThumbnails p req.SourcePath workDir
    match thumb.2 with
    | .error err => (ext.1 ++ thumb.1, some (Errorf "failed to generate thumbnails: " err))
    | .ok _thumbnailPath =>
      let prox := createProxies p ctx req.SourcePath workDir
      match prox.2 with
      | .error err =>
        (ext.1 ++ thumb.1 ++ prox.1, some (Errorf "failed to create proxies: " err))
      | .ok _proxyPaths =>
        let su := segmentAndUpload p ctx req.SourcePath req.FlowID metadata
        match su.2 with
        | some err =>
          (ext.1 ++ thumb.1 ++ prox.1 ++ su.1,
            some (Errorf "failed to segment and upload: " err))
        | none => (ext.1 ++ thumb.1 ++ prox.1 ++ su.1, none)

/-- The method `ProcessMedia` of the processor package. -/
def ProcessMedia (p : MediaProcessor) (ctx : Context) (req : ProcessRequest) :
    List ProcEvent × Option GoError :=
  let workDir := p.filepathJoin p.config.WorkDir req.AssetID
  match p.osMkdirAll workDir with
  | some err =>
    ([ProcEvent.osMkdirAll workDir (some err)],
      some (Errorf "failed to create work directory: " err))
  | none =>
    let body := ProcessMediaBody p ctx req workDir
    ([ProcEvent.osMkdirAll workDir none] ++ body.1 ++ [ProcEvent.osRemoveAll workDir], body.2)

/-! ## Observations on the calls of a run -/

/-- The outcome of a call is a success (a call that cannot fail counts as
one). -/
def Event.succeeded : Event → Bool
  | .dbCreateAsset _ (.ok _) => true
  | .dbCreateAsset _ (.error _) => false
  | .dbUpdateAssetStatus _ _ res => res.isNone
  | .dbUpdateAssetTAMSInfo _ _ _ res => res.isNone
  | .dbUpdateAssetErrorInfo _ _ res => res.isNone
  | .cacheDel _ => true
  | .tamsCreateSource _ (.ok _) => true
  | .tamsCreateSource _ (.error _) => false
  | .tamsCreateFlow _ (.ok _) => true
  | .tamsCreateFlow _ (.error _) => false
  | .processMedia _ _ res => res.isNone
  | .logPrintf _ => true
  | .goProcessIngest _ _ _ => true

/-- The asset passed to the store, for a create-asset call. -/
def Event.createdAsset : Event → Option Asset
  | .dbCreateAsset asset _ => some asset
  | _ => none

/-- The arguments of the goroutine, for a `go s.processIngest(...)`. -/
def Event.scheduledRun : Event → Option (Context × String × IngestRequest)
  | .goProcessIngest ctx assetID req => some (ctx, assetID, req)
  | _ => none

/-- The status a status write asks the store to record, whatever the outcome
of the write. -/
def Event.statusWritten : Event → Option String
  | .dbUpdateAssetStatus _ status _ => some status
  | _ => none

/-- The status a status write recorded: the store accepted the write. -/
def Event.statusPersisted : Event → Option String
  | .dbUpdateAssetStatus _ status none => some status
  | _ => none

/-- The source and flow identifiers an identifier write asks the store to
record. -/
def Event.tamsInfoWritten : Event → Option (String × String)
  | .dbUpdateAssetTAMSInfo _ sourceID flowID _ => some (sourceID, flowID)
  | _ => none

/-- The diagnostic a diagnostic write asks the store to record. -/
def Event.diagnostic : Event → Option ErrorInfo
  | .dbUpdateAssetErrorInfo _ errorInfo _ => some errorInfo
  | _ => none

/-- The key a cache deletion evicts. -/
def Event.invalidatedKey : Event → Option String
  | .cacheDel key => some key
  | _ => none

/-- The request of a create-source call. -/
def Event.sourceRequest : Event → Option TAMSSourceRequest
  | .tamsCreateSource req _ => some req
  | _ => none

/-- The calls of the processing stage, for a call of the stage. -/
def Event.stageCalls : Event → Option (ProcessRequest × List ProcEvent)
  | .processMedia req calls _ => some (req, calls)
  | _ => none

def createAssetCalls (trace : List Event) : List Asset := trace.filterMap Event.createdAsset
def scheduledRuns (trace : List Event) : List (Context × String × IngestRequest) :=
  trace.filterMap Event.scheduledRun
def statusWrites (trace : List Event) : List String := trace.filterMap Event.statusWritten
def persistedStatuses (trace : List Event) : List String := trace.filterMap Event.statusPersisted
def tamsInfoWrites (trace : List Event) : List (String × String) :=
  trace.filterMap Event.tamsInfoWritten
def diagnostics (trace : List Event) : List ErrorInfo := trace.filterMap Event.diagnostic
def invalidatedKeys (trace : List Event) : List String := trace.filterMap Event.invalidatedKey
def createSourceCalls (trace : List Event) : List TAMSSourceRequest :=
  trace.filterMap Event.sourceRequest
def stageRuns (trace : List Event) : List (ProcessRequest × List ProcEvent) :=
  trace.filterMap Event.stageCalls

/-- The terminal statuses of the asset state machine. -/
def isTerminal (status : String) : Bool := status == StateReady || status == StateFailed

/-- The segment a register-segment call registers. -/
def ProcEvent.registered : ProcEvent → Option TAMSSegment
  | .tamsRegisterSegment _ seg _ => some seg
  | _ => none

def registeredSegments (calls : List ProcEvent) : List TAMSSegment :=
  calls.filterMap ProcEvent.registered

/-- The request of a create-flow call. -/
def Event.flowRequest : Event → Option TAMSFlowRequest
  | .tamsCreateFlow req _ => some req
  | _ => none

def createFlowCalls (trace : List Event) : List TAMSFlowRequest :=
  trace.filterMap Event.flowRequest

/-- A call that allocates storage for a segment, uploads one or registers
one. -/
def ProcEvent.isSegmentCall : ProcEvent → Bool
  | .tamsAllocateStorage _ _ => true
  | .storageUploadSegment _ _ _ => true
  | .tamsRegisterSegment _ _ _ => true
  | _ => false

/-- The segment calls made by the processing stage during a run. -/
def stageSegmentCalls (trace : List Event) : List ProcEvent :=
  (stageRuns trace).flatMap (fun run => run.2.filter ProcEvent.isSegmentCall)

/-- Every status write the store accepted is immediately followed by the
deletion of the cache key of the asset written. -/
def InvalidationFollows (tr : List Event) : Prop :=
  ∀ (i : Nat) (id st : String), tr[i]? = some (Event.dbUpdateAssetStatus id st none) →
    tr[i + 1]? = some (Event.cacheDel ("asset:" ++ id))

/-- The outcome of a call of the processor package is a success (a call that
cannot fail counts as one). -/
def ProcEvent.succeeded : ProcEvent → Bool
  | .osMkdirAll _ res => res.isNone
  | .osRemoveAll _ => true
  | .cmdRun _ _ res => res.isNone
  | .cmdOutput _ _ (.ok _) => true
  | .cmdOutput _ _ (.error _) => false
  | .jsonUnmarshal _ res => res.isNone
  | .filepathGlob _ (.ok _) => true
  | .filepathGlob _ (.error _) => false
  | .tamsAllocateStorage _ (.ok _) => true
  | .tamsAllocateStorage _ (.error _) => false
  | .storageUploadSegment _ _ res => res.isNone
  | .tamsRegisterSegment _ _ res => res.isNone

/-! ## Concrete collaborators -/

/-- A service whose collaborators all succeed. -/
def okService : Service :=
  { dbCreateAsset := fun _ _ => .ok "asset-1"
    dbUpdateAssetStatus := fun _ _ _ => none
    dbUpdateAssetTAMSInfo := fun _ _ _ _ => none
    dbUpdateAssetErrorInfo := fun _ _ _ => none
    tamsCreateSource := fun _ _ => .ok "source-id"
    tamsCreateFlow := fun _ _ => .ok "flow-id"
    processMedia := fun _ _ => ([], none)
    timeNow := 0 }

/-- The request of the scenarios: a video called Demo. -/
def demoRequest : IngestRequest :=
  { Title := "Demo", Description := "", Type_ := "video", UserID := "u1", Metadata := [],
    SourcePath := "demo.mov" }

/-- A request with an empty title and an empty source path. -/
def emptyRequest : IngestRequest :=
  { Title := "", Description := "", Type_ := "video", UserID := "u1", Metadata := [],
    SourcePath := "" }

/-- A processor whose collaborators all succeed, with the given segment
duration, for which the segmenter leaves the given segment files.  Paths are
joined with a slash and a duration is printed as its count of nanoseconds. -/
def demoProcessor (segmentDuration : Int) (segments : List String) : MediaProcessor :=
  { config :=
      { WorkDir := "/work", ProxyFormats := [], SegmentDuration := segmentDuration,
        MaxConcurrent := 1, FFmpegPath := "ffmpeg" }
    transcoder := { ffmpegPath := "ffmpeg" }
    filepathJoin := fun a b => a ++ "/" ++ b
    durationString := fun ns => toString ns ++ "ns"
    osMkdirAll := fun _ => none
    cmdRun := fun _ _ _ _ => none
    cmdOutput := fun _ _ => .ok ""
    jsonUnmarshal := fun _ => none
    filepathGlob := fun _ => .ok segments
    tamsAllocateStorage := fun i _ _ =>
      .ok { PutURL := "put-" ++ toString i, ObjectID := "obj-" ++ toString i }
    storageUploadSegment := fun _ _ _ _ => none
    tamsRegisterSegment := fun _ _ _ _ => none }

/-- The metadata `Extract` returns. -/
def zeroMetadata : MediaMetadata :=
  { Duration := 0, Format := "", Codec := "", Width := 0, Height := 0, Framerate := "",
    Bitrate := 0, AudioCodec := "", AudioRate := 0, AudioLayout := "" }

/-- The store accepts every write except the status write `ready`. -/
def readyRejectedService : Service :=
  { okService with
    dbUpdateAssetStatus := fun _ _ status =>
      if status = "ready" then some (GoError.errorString "connection refused") else none }

/-- The registry accepts create-source and rejects create-flow. -/
def flowFailService : Service :=
  { okService with
    tamsCreateFlow := fun _ _ => .error (GoError.errorString "registry unavailable") }

/-- Metadata of a source that lasts 125 seconds. -/
def metadata125 : MediaMetadata := { zeroMetadata with Duration := 125 }

/-- The segment `segmentAndUpload` registers for the file at index `i`, once
storage `info` has been allocated for it. -/
def segmentFor (p : MediaProcessor) (i : Nat) (info : StorageInfo) : TAMSSegment :=
  { ObjectID := info.ObjectID,
    TimeRange := p.durationString (segmentTime i p.config.SegmentDuration) ++ ":" ++
      p.durationString (segmentTime (i + 1) p.config.SegmentDuration) }

/-- The three calls for the file `segment` at index `i` all succeed. -/
def segmentSucceeds (p : MediaProcessor) (ctx : Context) (flowID : String) (i : Nat)
    (segment : String) : Prop :=
  ∃ info : StorageInfo, p.tamsAllocateStorage i ctx flowID = .ok info ∧
    p.storageUploadSegment i ctx segment info.PutURL = none ∧
    p.tamsRegisterSegment i ctx flowID (segmentFor p i info) = none

/-- One of the three calls for the file `segment` at index `i` fails with cause
`e`, the calls before it for that file having succeeded; `call` is the failing
call and `msg` the text `segmentAndUpload` puts in front of the cause. -/
def segmentFails (p : MediaProcessor) (ctx : Context) (flowID : String) (i : Nat)
    (segment : String) (e : GoError) (call : ProcEvent) (msg : String) : Prop :=
  (p.tamsAllocateStorage i ctx flowID = .error e ∧
      call = ProcEvent.tamsAllocateStorage flowID (.error e) ∧
      msg = "failed to allocate storage: ") ∨
  (∃ info : StorageInfo, p.tamsAllocateStorage i ctx flowID = .ok info ∧
      p.storageUploadSegment i ctx segment info.PutURL = some e ∧
      call = ProcEvent.storageUploadSegment segment info.PutURL (some e) ∧
      msg = "failed to upload segment: ") ∨
  (∃ info : StorageInfo, p.tamsAllocateStorage i ctx flowID = .ok info ∧
      p.storageUploadSegment i ctx segment info.PutURL = none ∧
      p.tamsRegisterSegment i ctx flowID (segmentFor p i info) = some e ∧
      call = ProcEvent.tamsRegisterSegment flowID (segmentFor p i info) (some e) ∧
      msg = "failed to register segment: ")

/-- The upload of the segment at index `k` fails; every other call succeeds.
There are four segment files and the segment duration is 60 seconds. -/
def uploadFailsAt (k : Nat) : MediaProcessor :=
  { demoProcessor 60 ["segment_0000.ts", "segment_0001.ts", "segment_0002.ts",
      "segment_0003.ts"] with
    storageUploadSegment := fun i _ _ _ =>
      if i = k then some (GoError.errorString "connection reset") else none }

/-- The outcome of the transcoder on the rendition `format` at index `j`, as
`createProxies` invokes it. -/
def proxyOutcome (p : MediaProcessor) (ctx : Context) (input workDir : String) (j : Nat)
    (format : ProxyFormat) : Option GoError :=
  (p.transcoder.CreateProxy p j ctx input
    (p.filepathJoin workDir ("proxy_" ++ format.Name ++ ".mp4")) format).2

/-- A call of an external tool: a command run, a command output or the parsing
of one. -/
def ProcEvent.isToolCall : ProcEvent → Bool
  | .cmdRun _ _ _ => true
  | .cmdOutput _ _ _ => true
  | .jsonUnmarshal _ _ => true
  | _ => false

/-- The path of an `os.MkdirAll` call, whatever its outcome. -/
def ProcEvent.dirRequested : ProcEvent → Option String
  | .osMkdirAll path _ => some path
  | _ => none

/-- A listing of files by pattern. -/
def ProcEvent.isGlob : ProcEvent → Bool
  | .filepathGlob _ _ => true
  | _ => false

/-- The transcoder fails on the rendition at index `k`; every other call
succeeds. -/
def proxyFailsAt (k : Nat) : MediaProcessor :=
  { demoProcessor 60 ["segment_0000.ts"] with
    config :=
      { WorkDir := "/work",
        ProxyFormats :=
          [{ Name := "low", Width := 640, Height := 360, Bitrate := "500k", Codec := "h264" },
           { Name := "mid", Width := 1280, Height := 720, Bitrate := "2M", Codec := "h264" },
           { Name := "high", Width := 1920, Height := 1080, Bitrate := "5M", Codec := "h264" }],
        SegmentDuration := 60, MaxConcurrent := 1, FFmpegPath := "ffmpeg" }
    cmdRun := fun i ctx _ _ =>
      if i = k ∧ ctx.isSome then some (GoError.errorString "exit status 1") else none }

/-- The directories standing after a call, given those standing before it: a
successful `os.MkdirAll` adds its path, `os.RemoveAll` removes its path, and
no other call creates or deletes a directory. -/
def ProcEvent.applyDir (dirs : List String) : ProcEvent → List String
  | .osMkdirAll path none => path :: dirs
  | .osRemoveAll path => dirs.filter (fun d => d ≠ path)
  | _ => dirs

/-- The directories a run created and has not deleted when it returns. -/
def dirsLeft (calls : List ProcEvent) : List String :=
  calls.foldl ProcEvent.applyDir []

/-- A call that creates or deletes a directory. -/
def ProcEvent.isDirCall : ProcEvent → Bool
  | .osMkdirAll _ _ => true
  | .osRemoveAll _ => true
  | _ => false

/-- The request the pipeline hands to the processing stage in the scenarios. -/
def demoProcessRequest : ProcessRequest :=
  { AssetID := "asset-1", SourcePath := "demo.mov", FlowID := "flow-id" }

/-- A request of the processing stage for another asset. -/
def otherProcessRequest : ProcessRequest :=
  { AssetID := "asset-2", SourcePath := "other.mov", FlowID := "flow-2" }

/-- The registry succeeds and the processing stage fails. -/
def stageFailService : Service :=
  { okService with
    processMedia := fun _ _ =>
      ([], some (GoError.errorString "failed to extract metadata: ffprobe failed")) }

/-! ## `db/metadata_search.go` -/

/-- A piece of SQL text produced by `fmt.Sprintf`: literal text (format text or
a `%s` operand) or the output of a `$%d` verb pair, a placeholder. -/
inductive SqlPiece where
  | text (s : String)
  | placeholder (n : Nat)
  deriving DecidableEq, Repr

/-- The characters a piece stands for. -/
def SqlPiece.render : SqlPiece → String
  | .text s => s
  | .placeholder n => "$" ++ toString n

/-- The string a list of pieces stands for. -/
def renderSql (pieces : List SqlPiece) : String :=
  String.join (pieces.map SqlPiece.render)

/-- The diagnostic a diagnostic write recorded: the store accepted the write. -/
def Event.diagnosticPersisted : Event → Option ErrorInfo
  | .dbUpdateAssetErrorInfo _ errorInfo none => some errorInfo
  | _ => none

/-- The diagnostics the store recorded during a run, in order. -/
def persistedDiagnostics (trace : List Event) : List ErrorInfo :=
  trace.filterMap Event.diagnosticPersisted

/-- The registry rejects create-flow and the store rejects the status write
`failed`. -/
def flowFailStatusRejectedService : Service :=
  { flowFailService with
    dbUpdateAssetStatus := fun _ _ status =>
      if status = "failed" then some (GoError.errorString "connection refused") else none }

/-- The processing stage fails and the store rejects both the status write
`failed` and the diagnostic write. -/
def stageFailStoreRejectsService : Service :=
  { stageFailService with
    dbUpdateAssetStatus := fun _ _ status =>
      if status = "failed" then some (GoError.errorString "connection refused") else none
    dbUpdateAssetErrorInfo := fun _ _ _ => some (GoError.errorString "connection refused") }

/-- A run of the segmenter: a command with the argument list that
`Transcoder.Segment` builds, whatever the input, the duration and the
pattern. -/
def ProcEvent.isSegmenterRun : ProcEvent → Bool
  | .cmdRun _ [a0, _, a2, a3, a4, a5, a6, _, a8, a9, _] _ =>
    a0 == "-i" && a2 == "-c" && a3 == "copy" && a4 == "-f" && a5 == "segment" &&
      a6 == "-segment_time" && a8 == "-reset_timestamps" && a9 == "1"
  | _ => false

/-! ## Placeholders of an SQL text -/

/-- C1: when the create-asset call of `IngestAsset` succeeds, `IngestAsset`
returns without error an asset with status `new` whose title, description,
type, metadata and creator are those of the request, and the store's
create-asset operation was called exactly once, with that asset (before the
store gave it its identifier). -/
theorem ingestAsset_creates_new_asset (s : Service) (ctx : Context) (req : IngestRequest)
    (hok : ∀ e ∈ (IngestAsset s ctx req).1, e.createdAsset.isSome → e.succeeded = true) :
    ∃ asset : Asset, (IngestAsset s ctx req).2 = .ok asset ∧
      asset.Status = "new" ∧ asset.Title = req.Title ∧ asset.Description = req.Description ∧
      asset.Type_ = req.Type_ ∧ asset.Metadata = req.Metadata ∧ asset.CreatedBy = req.UserID ∧
      createAssetCalls (IngestAsset s ctx req).1 = [{ asset with ID := "" }] := by
  rcases h : s.dbCreateAsset ctx
      { ID := "", Title := req.Title, Description := req.Description, Type_ := req.Type_,
        Status := StateNew, Metadata := req.Metadata, CreatedBy := req.UserID } with err | id
  · simp only [IngestAsset, h] at hok
    simp [Event.createdAsset, Event.succeeded] at hok
  · simp only [IngestAsset, h]
    exact ⟨_, rfl, rfl, rfl, rfl, rfl, rfl, rfl, rfl⟩

/-- C1 at the demo request, with a store that accepts the asset. -/
theorem ingestAsset_creates_new_asset_witness :
    (∀ e ∈ (IngestAsset okService (Context.request false) demoRequest).1,
        e.createdAsset.isSome → e.succeeded = true) ∧
    ∃ asset : Asset, (IngestAsset okService (Context.request false) demoRequest).2 = .ok asset ∧
      asset.Status = "new" ∧ asset.Title = demoRequest.Title ∧
      asset.Description = demoRequest.Description ∧
      asset.Type_ = demoRequest.Type_ ∧ asset.Metadata = demoRequest.Metadata ∧
      asset.CreatedBy = demoRequest.UserID ∧
      createAssetCalls (IngestAsset okService (Context.request false) demoRequest).1 =
        [{ asset with ID := "" }] :=
  ⟨by decide, ingestAsset_creates_new_asset okService (Context.request false) demoRequest
    (by decide)⟩

/-- C2, as stated, fails: for a request whose title and source path are both
empty, `IngestAsset` returns an asset without error, after calling the store's
create-asset operation and scheduling a pipeline run. -/
theorem ingestAsset_empty_title_accepted :
    (IngestAsset okService (Context.request false) emptyRequest).2 =
        .ok { ID := "asset-1", Title := "", Description := "", Type_ := "video",
              Status := "new", Metadata := [], CreatedBy := "u1" } ∧
      createAssetCalls (IngestAsset okService (Context.request false) emptyRequest).1 =
        [{ ID := "", Title := "", Description := "", Type_ := "video",
           Status := "new", Metadata := [], CreatedBy := "u1" }] ∧
      scheduledRuns (IngestAsset okService (Context.request false) emptyRequest).1 =
        [(Context.background, "asset-1", emptyRequest)] := by
  decide

/-- C2, amended: `IngestAsset` does not look at the title or the source path.
For every request it calls the store's create-asset operation exactly once.
Either that call succeeds, and `IngestAsset` returns the asset and schedules
exactly one pipeline run; or that call fails with a cause, and `IngestAsset`
returns the error "failed to create asset: " wrapping that cause, having made
no other call and scheduled no pipeline run. -/
theorem ingestAsset_fails_only_on_store_error (s : Service) (ctx : Context)
    (req : IngestRequest) :
    (createAssetCalls (IngestAsset s ctx req).1).length = 1 ∧
    ((∃ asset : Asset, (IngestAsset s ctx req).2 = .ok asset ∧
        scheduledRuns (IngestAsset s ctx req).1 = [(Context.background, asset.ID, req)]) ∨
     (∃ (asset : Asset) (cause : GoError),
        (IngestAsset s ctx req).2 = .error (Errorf "failed to create asset: " cause) ∧
        (IngestAsset s ctx req).1 = [Event.dbCreateAsset asset (.error cause)] ∧
        scheduledRuns (IngestAsset s ctx req).1 = [])) := by
  rcases h : s.dbCreateAsset ctx
      { ID := "", Title := req.Title, Description := req.Description, Type_ := req.Type_,
        Status := StateNew, Metadata := req.Metadata, CreatedBy := req.UserID } with err | id
  · simp only [IngestAsset, h]
    exact ⟨rfl, Or.inr ⟨_, err, rfl, rfl, rfl⟩⟩
  · simp only [IngestAsset, h]
    exact ⟨rfl, Or.inl ⟨_, rfl, rfl⟩⟩

/-! ## `processIngest` -/

/-- C3: when every call of a pipeline run succeeds, the calls of the run are,
in order: status `ingesting` (with its cache invalidation), create-source,
create-flow with the source id create-source returned, the write of the
returned source and flow ids, status `processing` (with its invalidation), the
processing stage with the asset id, the request's source path and the flow id
create-flow returned, and status `ready` (with its invalidation).  Leaving the
cache invalidations out, these are exactly seven calls, and the statuses
written are `ingesting`, `processing`, `ready`, in that order. -/
theorem processIngest_success_calls (s : Service) (ctx : Context) (assetID : String)
    (req : IngestRequest)
    (hok : ∀ e ∈ processIngest s ctx assetID req, e.succeeded = true) :
    ∃ (sourceID flowID : String) (calls : List ProcEvent),
      processIngest s ctx assetID req =
        [Event.dbUpdateAssetStatus assetID "ingesting" none,
         Event.cacheDel ("asset:" ++ assetID),
         Event.tamsCreateSource
           { Label := req.Title, Format := mapTypeToTAMSFormat req.Type_,
             Description := req.Description } (.ok sourceID),
         Event.tamsCreateFlow
           { SourceID := sourceID, Label := req.Title,
             Format := mapTypeToTAMSFormat req.Type_,
             Description := req.Description } (.ok flowID),
         Event.dbUpdateAssetTAMSInfo assetID sourceID flowID none,
         Event.dbUpdateAssetStatus assetID "processing" none,
         Event.cacheDel ("asset:" ++ assetID),
         Event.processMedia
           { AssetID := assetID, SourcePath := req.SourcePath, FlowID := flowID } calls none,
         Event.dbUpdateAssetStatus assetID "ready" none,
         Event.cacheDel ("asset:" ++ assetID)] ∧
      (processIngest s ctx assetID req).filter (fun e => e.invalidatedKey.isNone) =
        [Event.dbUpdateAssetStatus assetID "ingesting" none,
         Event.tamsCreateSource
           { Label := req.Title, Format := mapTypeToTAMSFormat req.Type_,
             Description := req.Description } (.ok sourceID),
         Event.tamsCreateFlow
           { SourceID := sourceID, Label := req.Title,
             Format := mapTypeToTAMSFormat req.Type_,
             Description := req.Description } (.ok flowID),
         Event.dbUpdateAssetTAMSInfo assetID sourceID flowID none,
         Event.dbUpdateAssetStatus assetID "processing" none,
         Event.processMedia
           { AssetID := assetID, SourcePath := req.SourcePath, FlowID := flowID } calls none,
         Event.dbUpdateAssetStatus assetID "ready" none] ∧
      statusWrites (processIngest s ctx assetID req) = ["ingesting", "processing", "ready"] := by
  simp only [processIngest, handleIngestError, updateAssetStatus] at hok ⊢
  split at hok <;> split at hok <;> (try split at hok) <;> (try split at hok) <;>
    (try split at hok) <;> (try split at hok) <;> (try split at hok)
  all_goals
    simp_all [Event.succeeded, statusWrites, Event.statusWritten, Event.invalidatedKey,
      StateIngesting, StateProcessing, StateReady, StateFailed]

/-- C3 at the demo request, with collaborators that all succeed. -/
theorem processIngest_success_calls_witness :
    (∀ e ∈ processIngest okService Context.background "asset-1" demoRequest,
        e.succeeded = true) ∧
    statusWrites (processIngest okService Context.background "asset-1" demoRequest) =
      ["ingesting", "processing", "ready"] :=
  ⟨by decide, by
    obtain ⟨_, _, _, _, _, h⟩ :=
      processIngest_success_calls okService Context.background "asset-1" demoRequest (by decide)
    exact h⟩

/-- C4, as stated, fails: when the registry and the processing stage succeed
and the store rejects the status write `ready`, the statuses persisted for the
asset are `ingesting` and `processing`, and no terminal status is persisted. -/
theorem processIngest_ready_rejected_persists_no_terminal :
    persistedStatuses (processIngest readyRejectedService Context.background "asset-1"
        demoRequest) = ["ingesting", "processing"] ∧
      (persistedStatuses (processIngest readyRejectedService Context.background "asset-1"
        demoRequest)).filter isTerminal = [] := by
  decide

/-- C4, amended: in every pipeline run, whatever the outcomes of the registry,
the processing stage and the store's writes, exactly one terminal status write
(`ready` or `failed`, never both) is issued to the store, it is the last status
write of the run, and the terminal status is persisted exactly when the store
accepts that write. -/
theorem processIngest_one_terminal_write (s : Service) (ctx : Context) (assetID : String)
    (req : IngestRequest) :
    ∃ t : String, (t = "ready" ∨ t = "failed") ∧
      (statusWrites (processIngest s ctx assetID req)).filter isTerminal = [t] ∧
      (statusWrites (processIngest s ctx assetID req)).getLast? = some t ∧
      (persistedStatuses (processIngest s ctx assetID req)).filter isTerminal =
        if (s.dbUpdateAssetStatus ctx assetID t).isNone then [t] else [] := by
  simp only [processIngest, handleIngestError, updateAssetStatus]
  repeat' split
  all_goals first
    | (refine ⟨"ready", Or.inl rfl, ?_⟩
       simp_all [statusWrites, persistedStatuses, Event.statusWritten, Event.statusPersisted,
         isTerminal, StateIngesting, StateProcessing, StateReady, StateFailed]
       done)
    | (refine ⟨"failed", Or.inr rfl, ?_⟩
       simp_all [statusWrites, persistedStatuses, Event.statusWritten, Event.statusPersisted,
         isTerminal, StateIngesting, StateProcessing, StateReady, StateFailed])

/-- C6, as stated, fails: when create-source succeeds, create-flow fails and
the store rejects the status write `failed`, the only status persisted is
`ingesting`: the asset does not end with status `failed`. -/
theorem processIngest_flow_failure_status_rejected :
    (Event.tamsCreateSource
        { Label := "Demo", Format := "urn:x-nmos:format:video", Description := "" }
        (.ok "source-id") ∈
      processIngest flowFailStatusRejectedService Context.background "asset-1" demoRequest ∧
     Event.tamsCreateFlow
        { SourceID := "source-id", Label := "Demo", Format := "urn:x-nmos:format:video",
          Description := "" }
        (.error (GoError.errorString "registry unavailable")) ∈
      processIngest flowFailStatusRejectedService Context.background "asset-1" demoRequest) ∧
    persistedStatuses (processIngest flowFailStatusRejectedService Context.background
      "asset-1" demoRequest) = ["ingesting"] ∧
    (persistedStatuses (processIngest flowFailStatusRejectedService Context.background
      "asset-1" demoRequest)).getLast? ≠ some "failed" := by
  decide

/-- On a create-flow failure the last status persisted is `failed` exactly
when the store accepts the status write `failed`. -/
theorem processIngest_flow_failure_last_persisted (s : Service) (ctx : Context)
    (assetID : String) (req : IngestRequest) (rf : TAMSFlowRequest) (e : GoError)
    (hflow : Event.tamsCreateFlow rf (.error e) ∈ processIngest s ctx assetID req) :
    (persistedStatuses (processIngest s ctx assetID req)).getLast? = some "failed" ↔
      (s.dbUpdateAssetStatus ctx assetID "failed").isNone = true := by
  simp only [processIngest, handleIngestError, updateAssetStatus] at hflow ⊢
  repeat' split
  all_goals
    simp_all [persistedStatuses, Event.statusPersisted, StateIngesting, StateProcessing,
      StateReady, StateFailed]

/-- On a create-flow failure the diagnostic is stored exactly when the store
accepts the diagnostic write. -/
theorem processIngest_flow_failure_persisted_diagnostic (s : Service) (ctx : Context)
    (assetID : String) (req : IngestRequest) (rf : TAMSFlowRequest) (e : GoError)
    (hflow : Event.tamsCreateFlow rf (.error e) ∈ processIngest s ctx assetID req) :
    persistedDiagnostics (processIngest s ctx assetID req) =
      if (s.dbUpdateAssetErrorInfo ctx assetID
          { error_message := "failed to create TAMS flow", error_detail := e.Error,
            error_time := s.timeNow }).isNone
      then [{ error_message := "failed to create TAMS flow", error_detail := e.Error,
              error_time := s.timeNow }]
      else [] := by
  simp only [processIngest, handleIngestError, updateAssetStatus] at hflow ⊢
  repeat' split
  all_goals simp_all [persistedDiagnostics, Event.diagnosticPersisted]

/-- C6, amended: in every pipeline run in which create-source succeeds and
create-flow fails with cause `e`, the statuses written are `ingesting` then
`failed`, so `failed` is the last status the run writes, and the last status
persisted is `failed` exactly when the store accepts that write; the one
diagnostic the run hands to the store has the message "failed to create TAMS
flow", and it is stored, with the text of `e` as its detail, exactly when the
store accepts the diagnostic write; the processing stage is never invoked, so
that no segment is allocated, uploaded or registered. -/
theorem processIngest_create_flow_failure (s : Service) (ctx : Context) (assetID : String)
    (req : IngestRequest) (rs : TAMSSourceRequest) (sourceID : String)
    (rf : TAMSFlowRequest) (e : GoError)
    (hsource : Event.tamsCreateSource rs (.ok sourceID) ∈ processIngest s ctx assetID req)
    (hflow : Event.tamsCreateFlow rf (.error e) ∈ processIngest s ctx assetID req) :
    statusWrites (processIngest s ctx assetID req) = ["ingesting", "failed"] ∧
      (statusWrites (processIngest s ctx assetID req)).getLast? = some "failed" ∧
      ((persistedStatuses (processIngest s ctx assetID req)).filter isTerminal =
        if (s.dbUpdateAssetStatus ctx assetID "failed").isNone then ["failed"] else []) ∧
      (diagnostics (processIngest s ctx assetID req)).map (fun d => d.error_message) =
        ["failed to create TAMS flow"] ∧
      stageRuns (processIngest s ctx assetID req) = [] ∧
      stageSegmentCalls (processIngest s ctx assetID req) = [] ∧
      (persistedDiagnostics (processIngest s ctx assetID req) =
        if (s.dbUpdateAssetErrorInfo ctx assetID
            { error_message := "failed to create TAMS flow", error_detail := e.Error,
              error_time := s.timeNow }).isNone
        then [{ error_message := "failed to create TAMS flow", error_detail := e.Error,
                error_time := s.timeNow }]
        else []) ∧
      ((persistedStatuses (processIngest s ctx assetID req)).getLast? = some "failed" ↔
        (s.dbUpdateAssetStatus ctx assetID "failed").isNone = true) := by
  have hold : statusWrites (processIngest s ctx assetID req) = ["ingesting", "failed"] ∧
      (statusWrites (processIngest s ctx assetID req)).getLast? = some "failed" ∧
      ((persistedStatuses (processIngest s ctx assetID req)).filter isTerminal =
        if (s.dbUpdateAssetStatus ctx assetID "failed").isNone then ["failed"] else []) ∧
      (diagnostics (processIngest s ctx assetID req)).map (fun d => d.error_message) =
        ["failed to create TAMS flow"] ∧
      stageRuns (processIngest s ctx assetID req) = [] ∧
      stageSegmentCalls (processIngest s ctx assetID req) = [] := by
    simp only [stageSegmentCalls, processIngest, handleIngestError, updateAssetStatus]
      at hsource hflow ⊢
    repeat' split
    all_goals
      simp_all [statusWrites, persistedStatuses, diagnostics, stageRuns,
        Event.statusWritten, Event.statusPersisted, Event.diagnostic, Event.stageCalls,
        isTerminal, StateIngesting, StateProcessing, StateReady, StateFailed]
  obtain ⟨a, b, c, d, f, g⟩ := hold
  exact ⟨a, b, c, d, f, g,
    processIngest_flow_failure_persisted_diagnostic s ctx assetID req rf e hflow,
    processIngest_flow_failure_last_persisted s ctx assetID req rf e hflow⟩

/-- C6, amended, at the demo request, with a registry that rejects
create-flow. -/
theorem processIngest_create_flow_failure_witness :
    (Event.tamsCreateSource
        { Label := "Demo", Format := "urn:x-nmos:format:video", Description := "" }
        (.ok "source-id") ∈
      processIngest flowFailService Context.background "asset-1" demoRequest ∧
     Event.tamsCreateFlow
        { SourceID := "source-id", Label := "Demo", Format := "urn:x-nmos:format:video",
          Description := "" }
        (.error (GoError.errorString "registry unavailable")) ∈
      processIngest flowFailService Context.background "asset-1" demoRequest) ∧
    (diagnostics (processIngest flowFailService Context.background "asset-1"
        demoRequest)).map (fun d => d.error_message) = ["failed to create TAMS flow"] :=
  have h : Event.tamsCreateSource
        { Label := "Demo", Format := "urn:x-nmos:format:video", Description := "" }
        (.ok "source-id") ∈
      processIngest flowFailService Context.background "asset-1" demoRequest ∧
     Event.tamsCreateFlow
        { SourceID := "source-id", Label := "Demo", Format := "urn:x-nmos:format:video",
          Description := "" }
        (.error (GoError.errorString "registry unavailable")) ∈
      processIngest flowFailService Context.background "asset-1" demoRequest := by decide
  ⟨h, (processIngest_create_flow_failure flowFailService Context.background "asset-1"
      demoRequest _ _ _ _ h.1 h.2).2.2.2.1⟩

/-- C7, as stated, fails: when create-source returns the source id "source-id"
and create-flow then fails, the run makes no identifier write, so the source
id is not persisted on the asset. -/
theorem processIngest_flow_failure_source_id_not_persisted :
    Event.tamsCreateSource
        { Label := "Demo", Format := "urn:x-nmos:format:video", Description := "" }
        (.ok "source-id") ∈
      processIngest flowFailService Context.background "asset-1" demoRequest ∧
    tamsInfoWrites (processIngest flowFailService Context.background "asset-1"
      demoRequest) = [] := by
  decide

/-- C7, amended: in every pipeline run in which create-source succeeds with
source id `sourceID` and create-flow then fails, no identifier is persisted on
the asset: the run makes no identifier write, so the source id and the flow id
are both absent when the run ends; `sourceID` was only passed to create-flow. -/
theorem processIngest_flow_failure_no_identifier_write (s : Service) (ctx : Context)
    (assetID : String) (req : IngestRequest) (rs : TAMSSourceRequest) (sourceID : String)
    (rf : TAMSFlowRequest) (e : GoError)
    (hsource : Event.tamsCreateSource rs (.ok sourceID) ∈ processIngest s ctx assetID req)
    (hflow : Event.tamsCreateFlow rf (.error e) ∈ processIngest s ctx assetID req) :
    tamsInfoWrites (processIngest s ctx assetID req) = [] ∧ rf.SourceID = sourceID := by
  simp only [processIngest, handleIngestError, updateAssetStatus] at hsource hflow ⊢
  repeat' split
  all_goals
    simp_all [tamsInfoWrites, Event.tamsInfoWritten]

/-- C7, amended, at the demo request, with a registry that rejects
create-flow. -/
theorem processIngest_flow_failure_no_identifier_write_witness :
    (Event.tamsCreateSource
        { Label := "Demo", Format := "urn:x-nmos:format:video", Description := "" }
        (.ok "source-id") ∈
      processIngest flowFailService Context.background "asset-1" demoRequest ∧
     Event.tamsCreateFlow
        { SourceID := "source-id", Label := "Demo", Format := "urn:x-nmos:format:video",
          Description := "" }
        (.error (GoError.errorString "registry unavailable")) ∈
      processIngest flowFailService Context.background "asset-1" demoRequest) ∧
    tamsInfoWrites (processIngest flowFailService Context.background "asset-1"
      demoRequest) = [] :=
  have h : Event.tamsCreateSource
        { Label := "Demo", Format := "urn:x-nmos:format:video", Description := "" }
        (.ok "source-id") ∈
      processIngest flowFailService Context.background "asset-1" demoRequest ∧
     Event.tamsCreateFlow
        { SourceID := "source-id", Label := "Demo", Format := "urn:x-nmos:format:video",
          Description := "" }
        (.error (GoError.errorString "registry unavailable")) ∈
      processIngest flowFailService Context.background "asset-1" demoRequest := by decide
  ⟨h, (processIngest_flow_failure_no_identifier_write flowFailService Context.background
      "asset-1" demoRequest _ _ _ _ h.1 h.2).1⟩

/-! ## Cache invalidation -/

/-- The empty list of calls has no status write. -/
theorem invalidationFollows_nil : InvalidationFollows [] := by
  intro i id st h
  simp at h

/-- The property holds of two lists of calls put end to end when it holds of
each. -/
theorem invalidationFollows_append {l₁ l₂ : List Event} (h₁ : InvalidationFollows l₁)
    (h₂ : InvalidationFollows l₂) : InvalidationFollows (l₁ ++ l₂) := by
  intro i id st h
  by_cases hi : i < l₁.length
  · rw [List.getElem?_append_left hi] at h
    have h' := h₁ i id st h
    have hlt : i + 1 < l₁.length := by
      by_contra hge
      rw [List.getElem?_eq_none (by omega)] at h'
      exact Option.noConfusion h'
    rw [List.getElem?_append_left hlt]
    exact h'
  · have hle : l₁.length ≤ i := by omega
    rw [List.getElem?_append_right hle] at h
    have h' := h₂ _ id st h
    rw [List.getElem?_append_right (by omega)]
    have : i + 1 - l₁.length = i - l₁.length + 1 := by omega
    rw [this]
    exact h'

/-- A single call that is not an accepted status write. -/
theorem invalidationFollows_single {e : Event} (he : e.statusPersisted = none) :
    InvalidationFollows [e] := by
  intro i id st h
  rcases i with _ | i
  · simp at h
    subst h
    simp [Event.statusPersisted] at he
  · simp at h

/-- A call that is not an accepted status write may be put in front. -/
theorem invalidationFollows_cons {e : Event} {l : List Event} (he : e.statusPersisted = none)
    (h : InvalidationFollows l) : InvalidationFollows (e :: l) :=
  invalidationFollows_append (invalidationFollows_single he) h

/-- The calls of `updateAssetStatus` have the property. -/
theorem invalidationFollows_updateAssetStatus (s : Service) (ctx : Context)
    (assetID status : String) : InvalidationFollows (updateAssetStatus s ctx assetID status).1 := by
  intro i id st h
  unfold TamMam.updateAssetStatus at h ⊢
  split at h
  · rcases i with _ | i
    · simp at h
    · simp at h
  · rcases i with _ | _ | i
    · simp at h
      simp [h]
    · simp at h
    · simp at h

/-- The calls of `handleIngestError` have the property. -/
theorem invalidationFollows_handleIngestError (s : Service) (ctx : Context)
    (assetID message : String) (err : GoError) :
    InvalidationFollows (handleIngestError s ctx assetID message err) := by
  unfold TamMam.handleIngestError
  refine invalidationFollows_append (invalidationFollows_append ?_ ?_) ?_
  · exact invalidationFollows_single rfl
  · exact invalidationFollows_updateAssetStatus _ _ _ _
  · exact invalidationFollows_single rfl

/-- The calls of `processIngest` have the property, on each of its five
paths. -/
theorem invalidationFollows_processIngest (s : Service) (ctx : Context)
    (assetID : String) (req : IngestRequest) :
    InvalidationFollows (processIngest s ctx assetID req) := by
  have hU := invalidationFollows_updateAssetStatus s ctx assetID
  have hH := invalidationFollows_handleIngestError s ctx assetID
  have hC : ∀ {e : Event} {l : List Event}, e.statusPersisted = none →
      InvalidationFollows l → InvalidationFollows (e :: l) :=
    fun he h => invalidationFollows_cons he h
  have hA : ∀ {l₁ l₂ : List Event}, InvalidationFollows l₁ → InvalidationFollows l₂ →
      InvalidationFollows (l₁ ++ l₂) :=
    fun h₁ h₂ => invalidationFollows_append h₁ h₂
  simp only [TamMam.processIngest]
  repeat' split
  all_goals simp only [List.append_assoc, List.cons_append, List.nil_append]
  · exact hA (hU _) (hC rfl (hH _ _))
  · exact hA (hU _) (hC rfl (hC rfl (hH _ _)))
  · exact hA (hU _) (hC rfl (hC rfl (hC rfl (hH _ _))))
  · exact hA (hU _) (hC rfl (hC rfl (hC rfl (hA (hU _) (hC rfl (hH _ _))))))
  · exact hA (hU _) (hC rfl (hC rfl (hC rfl (hA (hU _) (hC rfl (hU _))))))

/-- C8: `updateAssetStatus` makes the store's status write first and then,
exactly when the store accepted the write, one deletion of the cache key
"asset:" followed by the asset id; it returns an error exactly when the write
failed, and then deletes nothing.  Hence in a pipeline run every status write
the store accepted is immediately followed by the deletion of that asset's
cache key. -/
theorem updateAssetStatus_invalidates_after_write (s : Service) (ctx : Context)
    (assetID status : String) (req : IngestRequest) :
    (updateAssetStatus s ctx assetID status).1 =
        Event.dbUpdateAssetStatus assetID status (s.dbUpdateAssetStatus ctx assetID status) ::
          (if (s.dbUpdateAssetStatus ctx assetID status).isNone
            then [Event.cacheDel ("asset:" ++ assetID)] else []) ∧
      invalidatedKeys (updateAssetStatus s ctx assetID status).1 =
        (if (s.dbUpdateAssetStatus ctx assetID status).isNone
          then ["asset:" ++ assetID] else []) ∧
      ((updateAssetStatus s ctx assetID status).2.isSome =
        (s.dbUpdateAssetStatus ctx assetID status).isSome) ∧
      ∀ (i : Nat) (id st : String),
        (processIngest s ctx assetID req)[i]? = some (Event.dbUpdateAssetStatus id st none) →
        (processIngest s ctx assetID req)[i + 1]? = some (Event.cacheDel ("asset:" ++ id)) := by
  refine ⟨?_, ?_, ?_, invalidationFollows_processIngest s ctx assetID req⟩
  · unfold updateAssetStatus
    split <;> simp_all
  · unfold updateAssetStatus
    split <;> simp_all [invalidatedKeys, Event.invalidatedKey]
  · unfold updateAssetStatus
    split <;> simp_all

/-- C8 at the first status write of an all-success run. -/
theorem updateAssetStatus_invalidates_after_write_witness :
    (processIngest okService Context.background "asset-1" demoRequest)[0]? =
        some (Event.dbUpdateAssetStatus "asset-1" "ingesting" none) ∧
      (processIngest okService Context.background "asset-1" demoRequest)[0 + 1]? =
        some (Event.cacheDel ("asset:" ++ "asset-1")) :=
  have h : (processIngest okService Context.background "asset-1" demoRequest)[0]? =
        some (Event.dbUpdateAssetStatus "asset-1" "ingesting" none) := by decide
  ⟨h, (updateAssetStatus_invalidates_after_write okService Context.background "asset-1"
      "ingesting" demoRequest).2.2.2 0 "asset-1" "ingesting" h⟩

/-! ## Format URN -/

/-- C9: `mapTypeToTAMSFormat` returns the video URN for "video", the audio URN
for "audio" and the data URN for every other string, among them "data", the
empty string and "Video"; and in every pipeline run the create-source request
carries `mapTypeToTAMSFormat` of the request's type as its format, and so does
the create-flow request whenever the run makes one. -/
theorem mapTypeToTAMSFormat_urn (t : String) (s : Service) (ctx : Context)
    (assetID : String) (req : IngestRequest) :
    mapTypeToTAMSFormat t =
        (if t = "video" then "urn:x-nmos:format:video"
         else if t = "audio" then "urn:x-nmos:format:audio"
         else "urn:x-nmos:format:data") ∧
      mapTypeToTAMSFormat "data" = "urn:x-nmos:format:data" ∧
      mapTypeToTAMSFormat "" = "urn:x-nmos:format:data" ∧
      mapTypeToTAMSFormat "Video" = "urn:x-nmos:format:data" ∧
      (createSourceCalls (processIngest s ctx assetID req)).map (fun r => r.Format) =
        [mapTypeToTAMSFormat req.Type_] ∧
      ((createFlowCalls (processIngest s ctx assetID req)).map (fun r => r.Format) = [] ∨
       (createFlowCalls (processIngest s ctx assetID req)).map (fun r => r.Format) =
        [mapTypeToTAMSFormat req.Type_]) := by
  refine ⟨?_, by decide, by decide, by decide, ?_, ?_⟩
  · unfold mapTypeToTAMSFormat
    split_ifs <;> rfl
  · simp only [processIngest, handleIngestError, updateAssetStatus]
    repeat' split
    all_goals simp [createSourceCalls, Event.sourceRequest]
  · simp only [processIngest, handleIngestError, updateAssetStatus]
    repeat' split
    all_goals simp [createFlowCalls, Event.flowRequest]

/-! ## `segmentAndUpload` -/

/-- A value in the `int64` range is not changed by the wrap-around. -/
theorem int64_eq_self (x : Int) (h₁ : -(2 ^ 63) ≤ x) (h₂ : x < 2 ^ 63) : int64 x = x := by
  unfold int64
  rw [Int.emod_eq_of_lt (by omega) (by omega)]
  omega

/-- Inside the `int64` range the product of `segmentTime` is the exact
product. -/
theorem segmentTime_eq (j : Nat) (d : Int) (hd : 0 < d) (hd' : d * Second < 2 ^ 63)
    (hj : (j : Int) * d * Second < 2 ^ 63) : segmentTime j d = (j : Int) * d * Second := by
  have hS : (0 : Int) < Second := by decide
  have hS1 : (1 : Int) ≤ Second := by decide
  have hj0 : (0 : Int) ≤ (j : Int) := Int.ofNat_nonneg j
  have hjd : (j : Int) ≤ (j : Int) * d := le_mul_of_one_le_right hj0 hd
  have hjd0 : (0 : Int) ≤ (j : Int) * d := le_trans hj0 hjd
  have hjdS : (j : Int) * d ≤ (j : Int) * d * Second := le_mul_of_one_le_right hjd0 hS1
  have hjS : (j : Int) * Second ≤ (j : Int) * d * Second :=
    mul_le_mul_of_nonneg_right hjd (le_of_lt hS)
  have hjS0 : (0 : Int) ≤ (j : Int) * Second := mul_nonneg hj0 (le_of_lt hS)
  have hdS : d ≤ d * Second := le_mul_of_one_le_right (le_of_lt hd) hS1
  unfold segmentTime
  rw [int64_eq_self (j : Int) (by omega) (by omega),
    int64_eq_self ((j : Int) * Second) (by omega) (by omega),
    int64_eq_self d (by omega) (by omega)]
  have : (j : Int) * Second * d = (j : Int) * d * Second := by ring
  rw [this]
  exact int64_eq_self _ (by omega) hj

/-- The loop makes only allocate, upload and register calls. -/
theorem segmentLoop_isSegmentCall (p : MediaProcessor) (ctx : Context) (flowID : String) :
    ∀ (segments : List String) (i : Nat),
      ∀ e ∈ (segmentLoop p ctx flowID i segments).1, e.isSegmentCall = true := by
  intro segments
  induction segments with
  | nil => intro i e he; simp [segmentLoop] at he
  | cons segment rest ih =>
    intro i e he
    simp only [segmentLoop] at he
    split at he
    · simp at he; subst he; rfl
    · split at he
      · simp at he; rcases he with he | he <;> (subst he; rfl)
      · split at he
        · simp at he; rcases he with he | he | he <;> (subst he; rfl)
        · simp at he
          rcases he with he | he | he | he
          · subst he; rfl
          · subst he; rfl
          · subst he; rfl
          · exact ih _ _ he

/-- When every call of the loop succeeds, the loop returns no error and
registers one segment per file, with the time ranges of the indices from `i`
on. -/
theorem segmentLoop_ok (p : MediaProcessor) (ctx : Context) (flowID : String) :
    ∀ (segments : List String) (i : Nat),
      (∀ e ∈ (segmentLoop p ctx flowID i segments).1, e.succeeded = true) →
      (segmentLoop p ctx flowID i segments).2 = none ∧
      (registeredSegments (segmentLoop p ctx flowID i segments).1).map (fun seg => seg.TimeRange) =
        (List.range' i segments.length).map (fun j =>
          p.durationString (segmentTime j p.config.SegmentDuration) ++ ":" ++
            p.durationString (segmentTime (j + 1) p.config.SegmentDuration)) := by
  intro segments
  induction segments with
  | nil => intro i _; simp [segmentLoop, registeredSegments]
  | cons segment rest ih =>
    intro i hok
    simp only [segmentLoop] at hok ⊢
    split at hok
    · simp [ProcEvent.succeeded] at hok
    · split at hok
      · simp [ProcEvent.succeeded] at hok
      · split at hok
        · simp [ProcEvent.succeeded] at hok
        · rename_i storageInfo hA _ hU _ hR
          simp only [hA, hU, hR]
          have hrest : ∀ e ∈ (segmentLoop p ctx flowID (i + 1) rest).1, e.succeeded = true := by
            intro e he
            exact hok e (by simp [he])
          obtain ⟨h₁, h₂⟩ := ih (i + 1) hrest
          refine ⟨h₁, ?_⟩
          simp only [registeredSegments] at h₂ ⊢
          simp [ProcEvent.registered, List.range'_succ, h₂]

/-- The exact product for every index up to `n`, when `n * d` seconds fit the
`int64` range. -/
theorem segmentTime_eq_of_le (j n : Nat) (d : Int) (hd : 0 < d) (hjn : j ≤ n) (hn : 0 < n)
    (hb : (n : Int) * d * Second < 2 ^ 63) : segmentTime j d = (j : Int) * d * Second := by
  have hS : (0 : Int) < Second := by decide
  have hdS : (0 : Int) ≤ d * Second := le_of_lt (mul_pos hd hS)
  have hjn' : (j : Int) ≤ (n : Int) := by exact_mod_cast hjn
  have hn' : (1 : Int) ≤ (n : Int) := by exact_mod_cast hn
  have h₁ : (j : Int) * (d * Second) ≤ (n : Int) * (d * Second) :=
    mul_le_mul_of_nonneg_right hjn' hdS
  have h₂ : d * Second ≤ (n : Int) * (d * Second) := le_mul_of_one_le_left hdS hn'
  rw [← mul_assoc, ← mul_assoc] at h₁
  rw [← mul_assoc] at h₂
  exact segmentTime_eq j d hd (lt_of_le_of_lt h₂ hb) (lt_of_le_of_lt h₁ hb)

/-- C10, as stated, fails: with a segment duration of 10000000000 seconds and
one segment file, every call succeeding, the one registration made has the end
time -8446744073709551616 nanoseconds, not 10000000000 seconds: the `int64`
product `1 * time.Second * 10000000000` wraps around. -/
theorem segmentAndUpload_end_time_wraps :
    0 < (demoProcessor 10000000000 ["segment_0000.ts"]).config.SegmentDuration ∧
      (segmentAndUpload (demoProcessor 10000000000 ["segment_0000.ts"]) Context.background
        "demo.mov" "flow-id" zeroMetadata).2 = none ∧
      registeredSegments (segmentAndUpload (demoProcessor 10000000000 ["segment_0000.ts"])
        Context.background "demo.mov" "flow-id" zeroMetadata).1 =
        [{ ObjectID := "obj-0", TimeRange := "0ns:-8446744073709551616ns" }] ∧
      segmentTime 1 10000000000 = -8446744073709551616 ∧
      segmentTime 1 10000000000 ≠ (1 : Int) * 10000000000 * Second := by
  decide

/-- C10, amended: for every segment duration `d > 0` and every number `n` of
segment files with `n * d` seconds within the `int64` nanosecond range
(`n * d * 10^9 < 2^63`), when all per-segment calls succeed `segmentAndUpload`
returns no error and registers exactly `n` segments, the `i`-th registration
(0-based, in call order) having the time range printed from start `i * d`
seconds and end `(i + 1) * d` seconds; these are the values the code computes,
the end of one segment is the start of the next, and each start is strictly
before its end. -/
theorem segmentAndUpload_registers_ranges (p : MediaProcessor) (ctx : Context)
    (input flowID : String) (metadata : MediaMetadata) (pattern : String)
    (segments : List String)
    (hd : 0 < p.config.SegmentDuration)
    (hbound : (segments.length : Int) * p.config.SegmentDuration * Second < 2 ^ 63)
    (hglob : ProcEvent.filepathGlob pattern (.ok segments) ∈
      (segmentAndUpload p ctx input flowID metadata).1)
    (hok : ∀ e ∈ (segmentAndUpload p ctx input flowID metadata).1,
      e.isSegmentCall = true → e.succeeded = true) :
    (segmentAndUpload p ctx input flowID metadata).2 = none ∧
      (registeredSegments (segmentAndUpload p ctx input flowID metadata).1).length =
        segments.length ∧
      (registeredSegments (segmentAndUpload p ctx input flowID metadata).1).map
          (fun seg => seg.TimeRange) =
        (List.range segments.length).map (fun (i : Nat) =>
          p.durationString ((i : Int) * p.config.SegmentDuration * Second) ++ ":" ++
            p.durationString (((i + 1 : Nat) : Int) * p.config.SegmentDuration * Second)) ∧
      ∀ i : Nat, i < segments.length →
        segmentTime i p.config.SegmentDuration = (i : Int) * p.config.SegmentDuration * Second ∧
        segmentTime (i + 1) p.config.SegmentDuration =
          ((i + 1 : Nat) : Int) * p.config.SegmentDuration * Second ∧
        segmentTime i p.config.SegmentDuration < segmentTime (i + 1) p.config.SegmentDuration := by
  have htimes : ∀ i : Nat, i < segments.length →
      segmentTime i p.config.SegmentDuration = (i : Int) * p.config.SegmentDuration * Second ∧
      segmentTime (i + 1) p.config.SegmentDuration =
        ((i + 1 : Nat) : Int) * p.config.SegmentDuration * Second := by
    intro i hi
    exact ⟨segmentTime_eq_of_le i _ _ hd (le_of_lt hi) (by omega) hbound,
      segmentTime_eq_of_le (i + 1) _ _ hd hi (by omega) hbound⟩
  have hloop : (segmentLoop p ctx flowID 0 segments).2 = none ∧
      (registeredSegments (segmentLoop p ctx flowID 0 segments).1).map (fun seg => seg.TimeRange) =
        (List.range' 0 segments.length).map (fun j =>
          p.durationString (segmentTime j p.config.SegmentDuration) ++ ":" ++
            p.durationString (segmentTime (j + 1) p.config.SegmentDuration)) ∧
      (segmentAndUpload p ctx input flowID metadata).2 = (segmentLoop p ctx flowID 0 segments).2 ∧
      registeredSegments (segmentAndUpload p ctx input flowID metadata).1 =
        registeredSegments (segmentLoop p ctx flowID 0 segments).1 := by
    simp only [segmentAndUpload, segmentAndUploadBody, Transcoder.Segment] at hglob hok ⊢
    split at hglob
    · simp at hglob
    · split at hglob
      · simp at hglob
      · split at hglob
        · simp at hglob
        · rename_i hM _ hS _ segs hG
          have hsegs : segments = segs := by
            simp at hglob
            rcases hglob with ⟨_, h⟩ | h
            · exact h
            · have := segmentLoop_isSegmentCall p ctx flowID _ _ _ h
              simp [ProcEvent.isSegmentCall] at this
          subst hsegs
          have hok' : ∀ e ∈ (segmentLoop p ctx flowID 0 segments).1, e.succeeded = true := by
            intro e he
            refine hok e ?_ (segmentLoop_isSegmentCall p ctx flowID _ _ e he)
            simp only [hM, hS, hG]
            simp [he]
          obtain ⟨h₁, h₂⟩ := segmentLoop_ok p ctx flowID segments 0 hok'
          refine ⟨h₁, h₂, ?_, ?_⟩
          · simp only [hM, hS, hG]
          · simp only [hM, hS, hG]
            simp [registeredSegments, ProcEvent.registered]
  obtain ⟨h₁, h₂, h₃, h₄⟩ := hloop
  have hmap : (registeredSegments (segmentAndUpload p ctx input flowID metadata).1).map
          (fun seg => seg.TimeRange) =
        (List.range segments.length).map (fun (i : Nat) =>
          p.durationString ((i : Int) * p.config.SegmentDuration * Second) ++ ":" ++
            p.durationString (((i + 1 : Nat) : Int) * p.config.SegmentDuration * Second)) := by
    rw [h₄, h₂, ← List.range_eq_range']
    apply List.map_congr_left
    intro i hi
    obtain ⟨ha, hb⟩ := htimes i (List.mem_range.mp hi)
    rw [ha, hb]
  refine ⟨h₃.trans h₁, ?_, hmap, ?_⟩
  · have := congrArg List.length hmap
    simpa using this
  · intro i hi
    obtain ⟨ha, hb⟩ := htimes i hi
    refine ⟨ha, hb, ?_⟩
    rw [ha, hb]
    have hS : (0 : Int) < Second := by decide
    have : (i : Int) < ((i + 1 : Nat) : Int) := by exact_mod_cast Nat.lt_succ_self i
    exact mul_lt_mul_of_pos_right (mul_lt_mul_of_pos_right this hd) hS

/-- C10, amended, at a segment duration of 60 seconds and three segment
files. -/
theorem segmentAndUpload_registers_ranges_witness :
    (0 < (demoProcessor 60 ["segment_0000.ts", "segment_0001.ts",
        "segment_0002.ts"]).config.SegmentDuration ∧
     ((["segment_0000.ts", "segment_0001.ts", "segment_0002.ts"].length : Nat) : Int) *
        (demoProcessor 60 ["segment_0000.ts", "segment_0001.ts",
          "segment_0002.ts"]).config.SegmentDuration * Second < 2 ^ 63 ∧
     ProcEvent.filepathGlob "/work/segments/segment_*.ts"
        (.ok ["segment_0000.ts", "segment_0001.ts", "segment_0002.ts"]) ∈
      (segmentAndUpload (demoProcessor 60 ["segment_0000.ts", "segment_0001.ts",
        "segment_0002.ts"]) Context.background "demo.mov" "flow-id" zeroMetadata).1 ∧
     ∀ e ∈ (segmentAndUpload (demoProcessor 60 ["segment_0000.ts", "segment_0001.ts",
        "segment_0002.ts"]) Context.background "demo.mov" "flow-id" zeroMetadata).1,
      e.isSegmentCall = true → e.succeeded = true) ∧
    (registeredSegments (segmentAndUpload (demoProcessor 60 ["segment_0000.ts",
      "segment_0001.ts", "segment_0002.ts"]) Context.background "demo.mov" "flow-id"
      zeroMetadata).1).length = 3 :=
  have h : (0 < (demoProcessor 60 ["segment_0000.ts", "segment_0001.ts",
        "segment_0002.ts"]).config.SegmentDuration ∧
     ((["segment_0000.ts", "segment_0001.ts", "segment_0002.ts"].length : Nat) : Int) *
        (demoProcessor 60 ["segment_0000.ts", "segment_0001.ts",
          "segment_0002.ts"]).config.SegmentDuration * Second < 2 ^ 63 ∧
     ProcEvent.filepathGlob "/work/segments/segment_*.ts"
        (.ok ["segment_0000.ts", "segment_0001.ts", "segment_0002.ts"]) ∈
      (segmentAndUpload (demoProcessor 60 ["segment_0000.ts", "segment_0001.ts",
        "segment_0002.ts"]) Context.background "demo.mov" "flow-id" zeroMetadata).1 ∧
     ∀ e ∈ (segmentAndUpload (demoProcessor 60 ["segment_0000.ts", "segment_0001.ts",
        "segment_0002.ts"]) Context.background "demo.mov" "flow-id" zeroMetadata).1,
      e.isSegmentCall = true → e.succeeded = true) := by decide
  ⟨h, (segmentAndUpload_registers_ranges _ _ _ _ _ _ _ h.1 h.2.1 h.2.2.1 h.2.2.2).2.1⟩

/-! ## `segmentAndUpload`: the last segment -/

/-- When the run reached the listing of `segments` and every per-segment call
succeeded, `segmentAndUpload` returns no error and registers, in order, one
segment per file with the time range the code computes for its index. -/
theorem segmentAndUpload_ok_timeRanges (p : MediaProcessor) (ctx : Context)
    (input flowID : String) (metadata : MediaMetadata) (pattern : String)
    (segments : List String)
    (hglob : ProcEvent.filepathGlob pattern (.ok segments) ∈
      (segmentAndUpload p ctx input flowID metadata).1)
    (hok : ∀ e ∈ (segmentAndUpload p ctx input flowID metadata).1,
      e.isSegmentCall = true → e.succeeded = true) :
    (segmentAndUpload p ctx input flowID metadata).2 = none ∧
      (registeredSegments (segmentAndUpload p ctx input flowID metadata).1).map
          (fun seg => seg.TimeRange) =
        (List.range segments.length).map (fun (i : Nat) =>
          p.durationString (segmentTime i p.config.SegmentDuration) ++ ":" ++
            p.durationString (segmentTime (i + 1) p.config.SegmentDuration)) := by
  simp only [segmentAndUpload, segmentAndUploadBody, Transcoder.Segment] at hglob hok ⊢
  split at hglob
  · simp at hglob
  · split at hglob
    · simp at hglob
    · split at hglob
      · simp at hglob
      · rename_i hM _ hS _ segs hG
        have hsegs : segments = segs := by
          simp at hglob
          rcases hglob with ⟨_, h⟩ | h
          · exact h
          · have := segmentLoop_isSegmentCall p ctx flowID _ _ _ h
            simp [ProcEvent.isSegmentCall] at this
        subst hsegs
        have hok' : ∀ e ∈ (segmentLoop p ctx flowID 0 segments).1, e.succeeded = true := by
          intro e he
          refine hok e ?_ (segmentLoop_isSegmentCall p ctx flowID _ _ e he)
          simp only [hM, hS, hG]
          simp [he]
        obtain ⟨h₁, h₂⟩ := segmentLoop_ok p ctx flowID segments 0 hok'
        simp only [hM, hS, hG]
        refine ⟨h₁, ?_⟩
        rw [List.range_eq_range', ← h₂]
        simp [registeredSegments, ProcEvent.registered]

/-- C11, as stated, fails: for a source of 125 seconds, a segment duration of
60 seconds and three segment files, every call succeeding, the third range
registered ends at 180 seconds, not at 125 seconds. -/
theorem segmentAndUpload_last_range_full_window :
    (registeredSegments (segmentAndUpload
        (demoProcessor 60 ["segment_0000.ts", "segment_0001.ts", "segment_0002.ts"])
        Context.background "demo.mov" "flow-id" metadata125).1).map (fun seg => seg.TimeRange) =
      ["0ns:60000000000ns", "60000000000ns:120000000000ns",
       "120000000000ns:180000000000ns"] ∧
    (registeredSegments (segmentAndUpload
        (demoProcessor 60 ["segment_0000.ts", "segment_0001.ts", "segment_0002.ts"])
        Context.background "demo.mov" "flow-id" metadata125).1).map (fun seg => seg.TimeRange) ≠
      ["0ns:60000000000ns", "60000000000ns:120000000000ns",
       "120000000000ns:125000000000ns"] := by
  decide

/-- C11, amended: with a segment duration of 60 seconds and three segment
files, registry and storage succeeding, `segmentAndUpload` registers exactly
three segments, with the time ranges printed from 0 to 60, 60 to 120 and 120
to 180 seconds, in that order, whatever the duration of the source: the last
range is a full window. -/
theorem segmentAndUpload_three_full_windows (p : MediaProcessor) (ctx : Context)
    (input flowID : String) (metadata : MediaMetadata) (pattern : String)
    (segments : List String)
    (hd : p.config.SegmentDuration = 60) (hn : segments.length = 3)
    (hglob : ProcEvent.filepathGlob pattern (.ok segments) ∈
      (segmentAndUpload p ctx input flowID metadata).1)
    (hok : ∀ e ∈ (segmentAndUpload p ctx input flowID metadata).1,
      e.isSegmentCall = true → e.succeeded = true) :
    (segmentAndUpload p ctx input flowID metadata).2 = none ∧
      (registeredSegments (segmentAndUpload p ctx input flowID metadata).1).map
          (fun seg => seg.TimeRange) =
        [p.durationString 0 ++ ":" ++ p.durationString (60 * Second),
         p.durationString (60 * Second) ++ ":" ++ p.durationString (120 * Second),
         p.durationString (120 * Second) ++ ":" ++ p.durationString (180 * Second)] := by
  obtain ⟨h₁, h₂⟩ := segmentAndUpload_ok_timeRanges p ctx input flowID metadata pattern
    segments hglob hok
  refine ⟨h₁, ?_⟩
  rw [h₂, hn, hd]
  have e0 : segmentTime 0 60 = 0 := by decide
  have e1 : segmentTime 1 60 = 60 * Second := by decide
  have e2 : segmentTime 2 60 = 120 * Second := by decide
  have e3 : segmentTime 3 60 = 180 * Second := by decide
  simp [List.range_succ, e0, e1, e2, e3]

/-- The number of windows of `d` needed to cover `D`, times `d`, is `D` rounded
up to the next multiple of `d`. -/
theorem ceilDiv_mul_bounds (D d : Nat) (hd : 0 < d) :
    D ≤ (D + d - 1) / d * d ∧ (D + d - 1) / d * d < D + d := by
  have h₁ : (D + d - 1) / d * d ≤ D + d - 1 := Nat.div_mul_le_self _ _
  have h₂ : D + d - 1 < d * ((D + d - 1) / d + 1) := Nat.lt_mul_div_succ _ hd
  have h₃ : d * ((D + d - 1) / d + 1) = (D + d - 1) / d * d + d := by ring
  omega

/-- C12, as stated, fails: for a source of 20000000000 seconds and a segment
duration of 10000000000 seconds (two segment files), the end time of the last
registration is 1553255926290448384 nanoseconds, not 20000000000 seconds: the
`int64` product wraps around. -/
theorem segmentAndUpload_last_end_wraps :
    (20000000000 + 10000000000 - 1) / 10000000000 = 2 ∧
    ((registeredSegments (segmentAndUpload
        (demoProcessor 10000000000 ["segment_0000.ts", "segment_0001.ts"])
        Context.background "demo.mov" "flow-id" zeroMetadata).1).map
          (fun seg => seg.TimeRange)).getLast? =
      some "-8446744073709551616ns:1553255926290448384ns" ∧
    segmentTime 2 10000000000 = 1553255926290448384 ∧
    segmentTime 2 10000000000 ≠ (2 : Int) * 10000000000 * Second := by
  decide

/-- C12, amended: for every source duration `D > 0` and segment duration
`d > 0` in whole seconds with `D` rounded up to the next multiple of `d`
inside the `int64` nanosecond range, when segmentation yields `ceil(D/d)`
files and all per-segment calls succeed, the last registration has the time
range printed from `(ceil(D/d) - 1) * d` to `ceil(D/d) * d` seconds, and
`ceil(D/d) * d` is `D` rounded up to the next multiple of `d`. -/
theorem segmentAndUpload_last_end_rounds_up (p : MediaProcessor) (ctx : Context)
    (input flowID : String) (metadata : MediaMetadata) (pattern : String)
    (segments : List String) (D d : Nat)
    (hD : 0 < D) (hd : 0 < d) (hcfg : p.config.SegmentDuration = (d : Int))
    (hn : segments.length = (D + d - 1) / d)
    (hbound : (((D + d - 1) / d * d : Nat) : Int) * Second < 2 ^ 63)
    (hglob : ProcEvent.filepathGlob pattern (.ok segments) ∈
      (segmentAndUpload p ctx input flowID metadata).1)
    (hok : ∀ e ∈ (segmentAndUpload p ctx input flowID metadata).1,
      e.isSegmentCall = true → e.succeeded = true) :
    ((registeredSegments (segmentAndUpload p ctx input flowID metadata).1).map
        (fun seg => seg.TimeRange)).getLast? =
      some (p.durationString ((((D + d - 1) / d - 1) * d : Nat) * Second) ++ ":" ++
        p.durationString ((((D + d - 1) / d * d : Nat) : Int) * Second)) ∧
      D ≤ (D + d - 1) / d * d ∧ (D + d - 1) / d * d < D + d := by
  obtain ⟨hb₁, hb₂⟩ := ceilDiv_mul_bounds D d hd
  refine ⟨?_, hb₁, hb₂⟩
  obtain ⟨_, h₂⟩ := segmentAndUpload_ok_timeRanges p ctx input flowID metadata pattern
    segments hglob hok
  have hq : 0 < (D + d - 1) / d := by
    rcases Nat.eq_zero_or_pos ((D + d - 1) / d) with h0 | h0
    · rw [h0] at hb₁; omega
    · exact h0
  obtain ⟨m, hm⟩ : ∃ m, (D + d - 1) / d = m + 1 := ⟨(D + d - 1) / d - 1, by omega⟩
  have hd' : (0 : Int) < (d : Int) := by exact_mod_cast hd
  have hbound' : ((m + 1 : Nat) : Int) * (d : Int) * Second < 2 ^ 63 := by
    rw [hm] at hbound
    push_cast at hbound ⊢
    exact hbound
  have e₁ := segmentTime_eq_of_le m (m + 1) (d : Int) hd' (Nat.le_succ m) (Nat.succ_pos m) hbound'
  have e₂ := segmentTime_eq_of_le (m + 1) (m + 1) (d : Int) hd' (le_refl _) (Nat.succ_pos m)
    hbound'
  rw [h₂, hn, hm, hcfg]
  simp only [List.range_succ, List.map_append, List.map_cons, List.map_nil]
  rw [List.getLast?_append, e₁, e₂]
  simp

/-- C11, amended, at the demo processor with three segment files and a source
of 125 seconds. -/
theorem segmentAndUpload_three_full_windows_witness :
    ((demoProcessor 60 ["segment_0000.ts", "segment_0001.ts",
        "segment_0002.ts"]).config.SegmentDuration = 60 ∧
     ["segment_0000.ts", "segment_0001.ts", "segment_0002.ts"].length = 3 ∧
     ProcEvent.filepathGlob "/work/segments/segment_*.ts"
        (.ok ["segment_0000.ts", "segment_0001.ts", "segment_0002.ts"]) ∈
      (segmentAndUpload (demoProcessor 60 ["segment_0000.ts", "segment_0001.ts",
        "segment_0002.ts"]) Context.background "demo.mov" "flow-id" metadata125).1 ∧
     ∀ e ∈ (segmentAndUpload (demoProcessor 60 ["segment_0000.ts", "segment_0001.ts",
        "segment_0002.ts"]) Context.background "demo.mov" "flow-id" metadata125).1,
      e.isSegmentCall = true → e.succeeded = true) ∧
    (segmentAndUpload (demoProcessor 60 ["segment_0000.ts", "segment_0001.ts",
      "segment_0002.ts"]) Context.background "demo.mov" "flow-id" metadata125).2 = none :=
  have h : ((demoProcessor 60 ["segment_0000.ts", "segment_0001.ts",
        "segment_0002.ts"]).config.SegmentDuration = 60 ∧
     ["segment_0000.ts", "segment_0001.ts", "segment_0002.ts"].length = 3 ∧
     ProcEvent.filepathGlob "/work/segments/segment_*.ts"
        (.ok ["segment_0000.ts", "segment_0001.ts", "segment_0002.ts"]) ∈
      (segmentAndUpload (demoProcessor 60 ["segment_0000.ts", "segment_0001.ts",
        "segment_0002.ts"]) Context.background "demo.mov" "flow-id" metadata125).1 ∧
     ∀ e ∈ (segmentAndUpload (demoProcessor 60 ["segment_0000.ts", "segment_0001.ts",
        "segment_0002.ts"]) Context.background "demo.mov" "flow-id" metadata125).1,
      e.isSegmentCall = true → e.succeeded = true) := by decide
  ⟨h, (segmentAndUpload_three_full_windows _ _ _ _ _ _ _ h.1 h.2.1 h.2.2.1 h.2.2.2).1⟩

/-- C12, amended, at a source of 125 seconds and a segment duration of 60
seconds, which give three segment files. -/
theorem segmentAndUpload_last_end_rounds_up_witness :
    ((0 < 125 ∧ 0 < 60) ∧
     (demoProcessor 60 ["segment_0000.ts", "segment_0001.ts",
        "segment_0002.ts"]).config.SegmentDuration = ((60 : Nat) : Int) ∧
     ["segment_0000.ts", "segment_0001.ts", "segment_0002.ts"].length = (125 + 60 - 1) / 60 ∧
     ((((125 + 60 - 1) / 60 * 60 : Nat) : Int) * Second < 2 ^ 63) ∧
     ProcEvent.filepathGlob "/work/segments/segment_*.ts"
        (.ok ["segment_0000.ts", "segment_0001.ts", "segment_0002.ts"]) ∈
      (segmentAndUpload (demoProcessor 60 ["segment_0000.ts", "segment_0001.ts",
        "segment_0002.ts"]) Context.background "demo.mov" "flow-id" metadata125).1 ∧
     ∀ e ∈ (segmentAndUpload (demoProcessor 60 ["segment_0000.ts", "segment_0001.ts",
        "segment_0002.ts"]) Context.background "demo.mov" "flow-id" metadata125).1,
      e.isSegmentCall = true → e.succeeded = true) ∧
    125 ≤ (125 + 60 - 1) / 60 * 60 :=
  have h : ((0 < 125 ∧ 0 < 60) ∧
     (demoProcessor 60 ["segment_0000.ts", "segment_0001.ts",
        "segment_0002.ts"]).config.SegmentDuration = ((60 : Nat) : Int) ∧
     ["segment_0000.ts", "segment_0001.ts", "segment_0002.ts"].length = (125 + 60 - 1) / 60 ∧
     ((((125 + 60 - 1) / 60 * 60 : Nat) : Int) * Second < 2 ^ 63) ∧
     ProcEvent.filepathGlob "/work/segments/segment_*.ts"
        (.ok ["segment_0000.ts", "segment_0001.ts", "segment_0002.ts"]) ∈
      (segmentAndUpload (demoProcessor 60 ["segment_0000.ts", "segment_0001.ts",
        "segment_0002.ts"]) Context.background "demo.mov" "flow-id" metadata125).1 ∧
     ∀ e ∈ (segmentAndUpload (demoProcessor 60 ["segment_0000.ts", "segment_0001.ts",
        "segment_0002.ts"]) Context.background "demo.mov" "flow-id" metadata125).1,
      e.isSegmentCall = true → e.succeeded = true) := by decide
  ⟨h, (segmentAndUpload_last_end_rounds_up _ _ _ _ _ _ _ 125 60 h.1.1 h.1.2 h.2.1 h.2.2.1
    h.2.2.2.1 h.2.2.2.2.1 h.2.2.2.2.2).2.1⟩

/-! ## `segmentAndUpload`: a failing segment -/

/-- When the files before position `m` go through and a call for the file at
position `m` fails with cause `e`, the loop returns `msg` wrapping `e`, does
exactly what it does on the first `m + 1` files alone, and ends with the
failing call. -/
theorem segmentLoop_fails (p : MediaProcessor) (ctx : Context) (flowID : String)
    (e : GoError) (call : ProcEvent) (msg : String) :
    ∀ (m : Nat) (segments : List String) (s : Nat) (segment : String),
      segments[m]? = some segment →
      (∀ (j : Nat) (seg : String), j < m → segments[j]? = some seg →
        segmentSucceeds p ctx flowID (s + j) seg) →
      segmentFails p ctx flowID (s + m) segment e call msg →
      (segmentLoop p ctx flowID s segments).2 = some (Errorf msg e) ∧
      segmentLoop p ctx flowID s segments =
        segmentLoop p ctx flowID s (segments.take (m + 1)) ∧
      (segmentLoop p ctx flowID s segments).1.getLast? = some call ∧
      (segmentLoop p ctx flowID s segments).1.length ≤ 3 * (m + 1) := by
  intro m
  induction m with
  | zero =>
    intro segments s segment hseg _ hfail
    rcases segments with _ | ⟨seg0, rest⟩
    · simp at hseg
    · simp at hseg
      subst hseg
      rcases hfail with ⟨hA, hc, hm⟩ | ⟨info, hA, hU, hc, hm⟩ |
        ⟨info, hA, hU, hR, hc, hm⟩
      · simp at hA
        simp [segmentLoop, hA, hc, hm]
      · simp at hA hU
        simp [segmentLoop, hA, hU, hc, hm]
      · simp only [segmentFor] at hR hc
        simp at hA hU hR
        simp [segmentLoop, hA, hU, hR, hc, hm]
  | succ m ih =>
    intro segments s segment hseg hprev hfail
    rcases segments with _ | ⟨seg0, rest⟩
    · simp at hseg
    · simp at hseg
      obtain ⟨info, hA, hU, hR⟩ := hprev 0 seg0 (Nat.succ_pos m) (by simp)
      simp only [segmentFor] at hR
      simp at hA hU hR
      have hprev' : ∀ (j : Nat) (seg : String), j < m → rest[j]? = some seg →
          segmentSucceeds p ctx flowID (s + 1 + j) seg := by
        intro j seg hj hs
        have := hprev (j + 1) seg (by omega) (by simpa using hs)
        have e : s + (j + 1) = s + 1 + j := by omega
        rwa [e] at this
      have hfail' : segmentFails p ctx flowID (s + 1 + m) segment e call msg := by
        have e : s + (m + 1) = s + 1 + m := by omega
        rwa [e] at hfail
      obtain ⟨h₁, h₂, h₃, h₄⟩ := ih rest (s + 1) segment hseg hprev' hfail'
      have hne : (segmentLoop p ctx flowID (s + 1) rest).1 ≠ [] := by
        intro h
        rw [h] at h₃
        simp at h₃
      refine ⟨?_, ?_, ?_, ?_⟩
      · simp [segmentLoop, hA, hU, hR, h₁]
      · simp only [segmentLoop, hA, hU, hR, List.take_succ_cons]
        rw [← h₂]
      · simp only [segmentLoop, hA, hU, hR]
        rw [List.getLast?_append_of_ne_nil _ hne]
        exact h₃
      · simp only [segmentLoop, hA, hU, hR]
        simp
        omega

/-- When the run reached the listing of `segments`, the result of
`segmentAndUpload` is the result of the loop over `segments`, and its
per-segment calls are the calls of that loop. -/
theorem segmentAndUpload_reached_loop (p : MediaProcessor) (ctx : Context)
    (input flowID : String) (metadata : MediaMetadata) (pattern : String)
    (segments : List String)
    (hglob : ProcEvent.filepathGlob pattern (.ok segments) ∈
      (segmentAndUpload p ctx input flowID metadata).1) :
    (segmentAndUpload p ctx input flowID metadata).2 =
        (segmentLoop p ctx flowID 0 segments).2 ∧
      (segmentAndUpload p ctx input flowID metadata).1.filter ProcEvent.isSegmentCall =
        (segmentLoop p ctx flowID 0 segments).1 := by
  simp only [segmentAndUpload, segmentAndUploadBody, Transcoder.Segment] at hglob ⊢
  split at hglob
  · simp at hglob
  · split at hglob
    · simp at hglob
    · split at hglob
      · simp at hglob
      · rename_i hM _ hS _ segs hG
        have hsegs : segments = segs := by
          simp at hglob
          rcases hglob with ⟨_, h⟩ | h
          · exact h
          · have := segmentLoop_isSegmentCall p ctx flowID _ _ _ h
            simp [ProcEvent.isSegmentCall] at this
        subst hsegs
        simp only [hM, hS, hG]
        refine ⟨trivial, ?_⟩
        simp [List.filter_append, List.filter_cons, ProcEvent.isSegmentCall]
        exact fun a ha => segmentLoop_isSegmentCall p ctx flowID _ _ a ha

/-- C13, as stated, fails: the error returned when the upload of segment 1
fails and the error returned when the upload of segment 2 fails with the same
cause are the same value, "failed to upload segment: " wrapping the cause; the
error carries no segment index. -/
theorem segmentAndUpload_error_without_index :
    (segmentAndUpload (uploadFailsAt 1) Context.background "demo.mov" "flow-id"
        zeroMetadata).2 =
      some (GoError.wrapError "failed to upload segment: connection reset"
        (GoError.errorString "connection reset")) ∧
    (segmentAndUpload (uploadFailsAt 2) Context.background "demo.mov" "flow-id"
        zeroMetadata).2 =
      (segmentAndUpload (uploadFailsAt 1) Context.background "demo.mov" "flow-id"
        zeroMetadata).2 := by
  decide

/-- C13, amended: for every list of segment files, every index `i` and each of
the three per-segment calls, if that call fails for segment `i` with cause `e`
(all earlier calls having succeeded), then `segmentAndUpload` makes the same
per-segment calls as for the first `i + 1` files alone, the failing call being
the last of them, so that no call is made for a segment after `i`; and it
returns an error that wraps `e` behind the text of the failing step ("failed to
allocate storage: ", "failed to upload segment: " or "failed to register
segment: "), which does not depend on `i`. -/
theorem segmentAndUpload_aborts_on_segment_failure (p : MediaProcessor) (ctx : Context)
    (input flowID : String) (metadata : MediaMetadata) (pattern : String)
    (segments : List String) (i : Nat) (segment : String) (e : GoError) (call : ProcEvent)
    (msg : String)
    (hglob : ProcEvent.filepathGlob pattern (.ok segments) ∈
      (segmentAndUpload p ctx input flowID metadata).1)
    (hseg : segments[i]? = some segment)
    (hprev : ∀ (j : Nat) (seg : String), j < i → segments[j]? = some seg →
      segmentSucceeds p ctx flowID j seg)
    (hfail : segmentFails p ctx flowID i segment e call msg) :
    (∃ err : GoError, (segmentAndUpload p ctx input flowID metadata).2 = some err ∧
        err.Unwrap = some e ∧ err.Error = msg ++ e.Error ∧
        (msg = "failed to allocate storage: " ∨ msg = "failed to upload segment: " ∨
          msg = "failed to register segment: ")) ∧
      (segmentAndUpload p ctx input flowID metadata).1.filter ProcEvent.isSegmentCall =
        (segmentLoop p ctx flowID 0 (segments.take (i + 1))).1 ∧
      ((segmentAndUpload p ctx input flowID metadata).1.filter
        ProcEvent.isSegmentCall).getLast? = some call ∧
      ((segmentAndUpload p ctx input flowID metadata).1.filter
        ProcEvent.isSegmentCall).length ≤ 3 * (i + 1) := by
  obtain ⟨hr, hc⟩ := segmentAndUpload_reached_loop p ctx input flowID metadata pattern
    segments hglob
  obtain ⟨h₁, h₂, h₃, h₄⟩ :=
    segmentLoop_fails p ctx flowID e call msg i segments 0 segment
    hseg (by simpa using hprev) (by simpa using hfail)
  refine ⟨⟨Errorf msg e, hr.trans h₁, rfl, rfl, ?_⟩, ?_, ?_, ?_⟩
  · rcases hfail with ⟨_, _, hm⟩ | ⟨_, _, _, _, hm⟩ | ⟨_, _, _, _, _, hm⟩
    · exact Or.inl hm
    · exact Or.inr (Or.inl hm)
    · exact Or.inr (Or.inr hm)
  · rw [hc, ← h₂]
  · rw [hc]; exact h₃
  · rw [hc]; exact h₄

/-- C13, amended, when the upload of segment 1 of four fails. -/
theorem segmentAndUpload_aborts_on_segment_failure_witness :
    (segmentAndUpload (uploadFailsAt 1) Context.background "demo.mov" "flow-id"
        zeroMetadata).1.filter ProcEvent.isSegmentCall =
      (segmentLoop (uploadFailsAt 1) Context.background "flow-id" 0
        (["segment_0000.ts", "segment_0001.ts", "segment_0002.ts",
          "segment_0003.ts"].take (1 + 1))).1 :=
  (segmentAndUpload_aborts_on_segment_failure (uploadFailsAt 1) Context.background
    "demo.mov" "flow-id" zeroMetadata "/work/segments/segment_*.ts"
    ["segment_0000.ts", "segment_0001.ts", "segment_0002.ts", "segment_0003.ts"] 1
    "segment_0001.ts" (GoError.errorString "connection reset")
    (ProcEvent.storageUploadSegment "segment_0001.ts" "put-1"
      (some (GoError.errorString "connection reset")))
    "failed to upload segment: "
    (by decide) (by decide)
    (by
      intro j seg hj hs
      have hj0 : j = 0 := by omega
      subst hj0
      simp at hs
      subst hs
      exact ⟨{ PutURL := "put-0", ObjectID := "obj-0" }, by decide, by decide, by decide⟩)
    (Or.inr (Or.inl ⟨{ PutURL := "put-1", ObjectID := "obj-1" }, by decide, by decide,
      by decide, by decide⟩))).2.1

/-! ## `ProcessMedia`: proxies and directories -/

/-- The proxy loop makes only transcoder calls. -/
theorem createProxiesLoop_isToolCall (p : MediaProcessor) (ctx : Context)
    (input workDir : String) :
    ∀ (formats : List ProxyFormat) (s : Nat) (paths : List (String × String)),
      ∀ e ∈ (createProxiesLoop p ctx input workDir s formats paths).1, e.isToolCall = true := by
  intro formats
  induction formats with
  | nil => intro s paths e he; simp [createProxiesLoop] at he
  | cons f rest ih =>
    intro s paths e he
    simp only [createProxiesLoop, Transcoder.CreateProxy] at he
    split at he
    · simp at he; subst he; rfl
    · simp at he
      rcases he with he | he
      · subst he; rfl
      · exact ih _ _ e he

/-- When the renditions before position `k` are transcoded and the transcoder
fails on the rendition at position `k` with cause `e`, the loop returns the
error naming that rendition and wrapping `e`, makes the calls it makes on the
first `k + 1` renditions alone, `k + 1` in all, and ends with the failing
call. -/
theorem createProxiesLoop_fails (p : MediaProcessor) (ctx : Context) (input workDir : String)
    (e : GoError) :
    ∀ (k : Nat) (formats : List ProxyFormat) (s : Nat) (paths : List (String × String))
      (fk : ProxyFormat),
      formats[k]? = some fk →
      (∀ (j : Nat) (f : ProxyFormat), j < k → formats[j]? = some f →
        proxyOutcome p ctx input workDir (s + j) f = none) →
      proxyOutcome p ctx input workDir (s + k) fk = some e →
      (createProxiesLoop p ctx input workDir s formats paths).2 =
          .error (Errorf ("failed to create " ++ fk.Name ++ " proxy: ") e) ∧
        (createProxiesLoop p ctx input workDir s formats paths).1 =
          (createProxiesLoop p ctx input workDir s (formats.take (k + 1)) paths).1 ∧
        (createProxiesLoop p ctx input workDir s formats paths).1.length = k + 1 ∧
        (∃ (name : String) (args : List String),
          (createProxiesLoop p ctx input workDir s formats paths).1.getLast? =
            some (ProcEvent.cmdRun name args (some e))) := by
  intro k
  induction k with
  | zero =>
    intro formats s paths fk hk _ hfail
    rcases formats with _ | ⟨f0, rest⟩
    · simp at hk
    · simp at hk
      subst hk
      simp only [proxyOutcome, Transcoder.CreateProxy, Nat.add_zero] at hfail
      simp [createProxiesLoop, Transcoder.CreateProxy, hfail]
  | succ k ih =>
    intro formats s paths fk hk hprev hfail
    rcases formats with _ | ⟨f0, rest⟩
    · simp at hk
    · simp at hk
      have h0 := hprev 0 f0 (Nat.succ_pos k) (by simp)
      simp only [proxyOutcome, Transcoder.CreateProxy, Nat.add_zero] at h0
      have hprev' : ∀ (j : Nat) (f : ProxyFormat), j < k → rest[j]? = some f →
          proxyOutcome p ctx input workDir (s + 1 + j) f = none := by
        intro j f hj hf
        have := hprev (j + 1) f (by omega) (by simpa using hf)
        have e : s + (j + 1) = s + 1 + j := by omega
        rwa [e] at this
      have hfail' : proxyOutcome p ctx input workDir (s + 1 + k) fk = some e := by
        have e : s + (k + 1) = s + 1 + k := by omega
        rwa [e] at hfail
      obtain ⟨h₁, h₂, h₃, name, args, h₄⟩ := ih rest (s + 1)
        ((f0.Name, p.filepathJoin workDir ("proxy_" ++ f0.Name ++ ".mp4")) ::
          paths.filter (fun e => e.1 ≠ f0.Name)) fk hk hprev' hfail'
      have hne : (createProxiesLoop p ctx input workDir (s + 1) rest
          ((f0.Name, p.filepathJoin workDir ("proxy_" ++ f0.Name ++ ".mp4")) ::
            paths.filter (fun e => e.1 ≠ f0.Name))).1 ≠ [] := by
        intro h
        rw [h] at h₃
        simp at h₃
      refine ⟨?_, ?_, ?_, name, args, ?_⟩
      · simp only [createProxiesLoop, Transcoder.CreateProxy, h0]
        exact h₁
      · simp only [createProxiesLoop, Transcoder.CreateProxy, h0, List.take_succ_cons]
        rw [← h₂]
      · simp only [createProxiesLoop, Transcoder.CreateProxy, h0, List.length_append,
          List.length_singleton, h₃]
        omega
      · simp only [createProxiesLoop, Transcoder.CreateProxy, h0]
        rw [List.getLast?_append_of_ne_nil _ hne]
        exact h₄

/-- `Extract` makes only tool calls. -/
theorem Extract_isToolCall (p : MediaProcessor) (filepath : String) :
    ∀ e ∈ (Extract p filepath).1, e.isToolCall = true := by
  intro e he
  simp only [Extract] at he
  split at he
  · simp at he; subst he; rfl
  · split at he <;> (simp at he; rcases he with he | he <;> (subst he; rfl))

/-- `generateThumbnails` makes only tool calls. -/
theorem generateThumbnails_isToolCall (p : MediaProcessor) (input workDir : String) :
    ∀ e ∈ (generateThumbnails p input workDir).1, e.isToolCall = true := by
  intro e he
  simp only [generateThumbnails] at he
  split at he <;> (simp at he; subst he; rfl)

/-- Tool calls are no per-segment calls, no listings and no directory
creations. -/
theorem toolCalls_not_segment_nor_dir (l : List ProcEvent)
    (h : ∀ e ∈ l, e.isToolCall = true) :
    l.filter ProcEvent.isSegmentCall = [] ∧ l.filter ProcEvent.isGlob = [] ∧
      l.filterMap ProcEvent.dirRequested = [] := by
  refine ⟨?_, ?_, ?_⟩
  · rw [List.filter_eq_nil_iff]
    intro a ha
    have := h a ha
    cases a <;> simp_all [ProcEvent.isToolCall, ProcEvent.isSegmentCall]
  · rw [List.filter_eq_nil_iff]
    intro a ha
    have := h a ha
    cases a <;> simp_all [ProcEvent.isToolCall, ProcEvent.isGlob]
  · rw [List.filterMap_eq_nil_iff]
    intro a ha
    have := h a ha
    cases a <;> simp_all [ProcEvent.isToolCall, ProcEvent.dirRequested]

/-- The call `Transcoder.Segment` makes is a run of the segmenter. -/
theorem segment_isSegmenterRun (t : Transcoder) (p : MediaProcessor) (ctx : Context)
    (input segmentPattern : String) (duration : Int) :
    (t.Segment p ctx input segmentPattern duration).1.filter ProcEvent.isSegmenterRun =
      (t.Segment p ctx input segmentPattern duration).1 := by
  simp [Transcoder.Segment, ProcEvent.isSegmenterRun]

/-- The proxy loop never runs the segmenter. -/
theorem createProxiesLoop_no_segmenter (p : MediaProcessor) (ctx : Context)
    (input workDir : String) :
    ∀ (formats : List ProxyFormat) (s : Nat) (paths : List (String × String)),
      (createProxiesLoop p ctx input workDir s formats paths).1.filter
        ProcEvent.isSegmenterRun = [] := by
  intro formats
  induction formats with
  | nil => intro s paths; simp [createProxiesLoop]
  | cons f rest ih =>
    intro s paths
    simp only [createProxiesLoop, Transcoder.CreateProxy]
    split
    · simp [ProcEvent.isSegmenterRun]
    · simp [List.filter_append, ProcEvent.isSegmenterRun, ih]

/-- `Extract` and `generateThumbnails` never run the segmenter. -/
theorem extract_thumbnail_no_segmenter (p : MediaProcessor) (input workDir : String) :
    (Extract p input).1.filter ProcEvent.isSegmenterRun = [] ∧
      (generateThumbnails p input workDir).1.filter ProcEvent.isSegmenterRun = [] := by
  constructor
  · simp only [Extract]
    split
    · simp [ProcEvent.isSegmenterRun]
    · split <;> simp [ProcEvent.isSegmenterRun]
  · simp only [generateThumbnails]
    split <;> simp [ProcEvent.isSegmenterRun]

/-- Tool calls are kept when the directory calls are left out. -/
theorem toolCalls_filter_not_dir (l : List ProcEvent) (h : ∀ e ∈ l, e.isToolCall = true) :
    l.filter (fun e => !e.isDirCall) = l := by
  rw [List.filter_eq_self]
  intro a ha
  have := h a ha
  cases a <;> simp_all [ProcEvent.isToolCall, ProcEvent.isDirCall]

/-- C14: for every configured list of proxy renditions and every position `k`
in it, if the transcoder fails on rendition `k` with cause `e` (the earlier
ones having succeeded), then `createProxies` returns an error (naming the
rendition and wrapping `e`) and no map of paths, it makes the transcoder calls
of the first `k + 1` renditions only, the failing one being the last, and
`ProcessMedia` returns an error; in the run of `ProcessMedia` the only
directory ever requested is the asset's working directory, the segmenter is
never run, and the calls other than directory calls are an initial part of
the calls of `Extract`, `generateThumbnails` and `createProxies`: nothing of
`segmentAndUpload` is performed, no segment directory, no segmentation, no
listing of segments, no storage allocation, no upload and no segment
registration. -/
theorem createProxies_failure_is_fatal (p : MediaProcessor) (ctx : Context)
    (req : ProcessRequest) (k : Nat) (fk : ProxyFormat) (e : GoError)
    (hk : p.config.ProxyFormats[k]? = some fk)
    (hprev : ∀ (j : Nat) (f : ProxyFormat), j < k → p.config.ProxyFormats[j]? = some f →
      proxyOutcome p ctx req.SourcePath (p.filepathJoin p.config.WorkDir req.AssetID) j f =
        none)
    (hfail : proxyOutcome p ctx req.SourcePath (p.filepathJoin p.config.WorkDir req.AssetID)
      k fk = some e) :
    (createProxies p ctx req.SourcePath (p.filepathJoin p.config.WorkDir req.AssetID)).2 =
        .error (Errorf ("failed to create " ++ fk.Name ++ " proxy: ") e) ∧
      (createProxies p ctx req.SourcePath (p.filepathJoin p.config.WorkDir req.AssetID)).1 =
        (createProxiesLoop p ctx req.SourcePath (p.filepathJoin p.config.WorkDir req.AssetID)
          0 (p.config.ProxyFormats.take (k + 1)) []).1 ∧
      (createProxies p ctx req.SourcePath
        (p.filepathJoin p.config.WorkDir req.AssetID)).1.length = k + 1 ∧
      (∃ (name : String) (args : List String),
        (createProxies p ctx req.SourcePath
          (p.filepathJoin p.config.WorkDir req.AssetID)).1.getLast? =
            some (ProcEvent.cmdRun name args (some e))) ∧
      (ProcessMedia p ctx req).2.isSome = true ∧
      (ProcessMedia p ctx req).1.filter ProcEvent.isSegmentCall = [] ∧
      (ProcessMedia p ctx req).1.filter ProcEvent.isGlob = [] ∧
      (ProcessMedia p ctx req).1.filterMap ProcEvent.dirRequested =
        [p.filepathJoin p.config.WorkDir req.AssetID] ∧
      (ProcessMedia p ctx req).1.filter ProcEvent.isSegmenterRun = [] ∧
      (ProcessMedia p ctx req).1.filter (fun ev => !ev.isDirCall) <+:
        (Extract p req.SourcePath).1 ++
          (generateThumbnails p req.SourcePath
            (p.filepathJoin p.config.WorkDir req.AssetID)).1 ++
          (createProxies p ctx req.SourcePath
            (p.filepathJoin p.config.WorkDir req.AssetID)).1 := by
  obtain ⟨h₁, h₂, h₃, h₄⟩ := createProxiesLoop_fails p ctx req.SourcePath
    (p.filepathJoin p.config.WorkDir req.AssetID) e k p.config.ProxyFormats 0 [] fk hk
    (by simpa using hprev) (by simpa using hfail)
  refine ⟨h₁, h₂, h₃, h₄, ?_⟩
  have tE := Extract_isToolCall p req.SourcePath
  have tT := generateThumbnails_isToolCall p req.SourcePath
    (p.filepathJoin p.config.WorkDir req.AssetID)
  have tP := createProxiesLoop_isToolCall p ctx req.SourcePath
    (p.filepathJoin p.config.WorkDir req.AssetID) p.config.ProxyFormats 0 []
  have hS := extract_thumbnail_no_segmenter p req.SourcePath
    (p.filepathJoin p.config.WorkDir req.AssetID)
  have hPS := createProxiesLoop_no_segmenter p ctx req.SourcePath
    (p.filepathJoin p.config.WorkDir req.AssetID) p.config.ProxyFormats 0 []
  have h₁' : (createProxies p ctx req.SourcePath
      (p.filepathJoin p.config.WorkDir req.AssetID)).2 =
      .error (Errorf ("failed to create " ++ fk.Name ++ " proxy: ") e) := h₁
  have hform : (ProcessMedia p ctx req).2.isSome = true ∧
      ∃ (res : Option GoError) (l tail : List ProcEvent),
        (ProcessMedia p ctx req).1 =
          [ProcEvent.osMkdirAll (p.filepathJoin p.config.WorkDir req.AssetID) res] ++ l ++ tail ∧
        (tail = [] ∨ tail = [ProcEvent.osRemoveAll
          (p.filepathJoin p.config.WorkDir req.AssetID)]) ∧
        (∀ ev ∈ l, ev.isToolCall = true) ∧
        l.filter ProcEvent.isSegmenterRun = [] ∧
        l <+: (Extract p req.SourcePath).1 ++
          (generateThumbnails p req.SourcePath
            (p.filepathJoin p.config.WorkDir req.AssetID)).1 ++
          (createProxies p ctx req.SourcePath
            (p.filepathJoin p.config.WorkDir req.AssetID)).1 := by
    simp only [ProcessMedia, ProcessMediaBody]
    split
    · exact ⟨rfl, _, [], [], rfl, Or.inl rfl, by simp, rfl, List.nil_prefix⟩
    · split
      · refine ⟨rfl, none, (Extract p req.SourcePath).1, _, rfl, Or.inr rfl, tE, hS.1, ?_⟩
        rw [List.append_assoc]
        exact List.prefix_append _ _
      · split
        · refine ⟨rfl, none, (Extract p req.SourcePath).1 ++ (generateThumbnails p
            req.SourcePath (p.filepathJoin p.config.WorkDir req.AssetID)).1, _, rfl,
            Or.inr rfl, ?_, ?_, List.prefix_append _ _⟩
          · intro ev hev
            rcases List.mem_append.mp hev with h | h
            · exact tE ev h
            · exact tT ev h
          · rw [List.filter_append, hS.1, hS.2]
            rfl
        · split
          · refine ⟨rfl, none, (Extract p req.SourcePath).1 ++ (generateThumbnails p
              req.SourcePath (p.filepathJoin p.config.WorkDir req.AssetID)).1 ++
              (createProxies p ctx req.SourcePath
                (p.filepathJoin p.config.WorkDir req.AssetID)).1, _, rfl,
              Or.inr rfl, ?_, ?_, List.prefix_refl _⟩
            · intro ev hev
              rcases List.mem_append.mp hev with h | h
              · rcases List.mem_append.mp h with h | h
                · exact tE ev h
                · exact tT ev h
              · exact tP ev h
            · rw [List.filter_append, List.filter_append, hS.1, hS.2]
              exact hPS
          · rename_i hok
            rw [h₁'] at hok
            exact absurd hok (by simp)
  obtain ⟨hres, res, l, tail, htr, htail, htool, hseg, hpre⟩ := hform
  obtain ⟨f₁, f₂, f₃⟩ := toolCalls_not_segment_nor_dir l htool
  have f₄ := toolCalls_filter_not_dir l htool
  refine ⟨hres, ?_, ?_, ?_, ?_, ?_⟩
  · rw [htr, List.filter_append, List.filter_append, f₁]
    rcases htail with h | h <;> (subst h; simp [ProcEvent.isSegmentCall])
  · rw [htr, List.filter_append, List.filter_append, f₂]
    rcases htail with h | h <;> (subst h; simp [ProcEvent.isGlob])
  · rw [htr, List.filterMap_append, List.filterMap_append, f₃]
    rcases htail with h | h <;> (subst h; simp [ProcEvent.dirRequested])
  · rw [htr, List.filter_append, List.filter_append, hseg]
    rcases htail with h | h <;> (subst h; simp [ProcEvent.isSegmenterRun])
  · rw [htr, List.filter_append, List.filter_append, f₄]
    have e₁ : [ProcEvent.osMkdirAll (p.filepathJoin p.config.WorkDir req.AssetID) res].filter
        (fun ev => !ev.isDirCall) = [] := rfl
    rw [e₁]
    rcases htail with h | h
    · subst h
      simpa using hpre
    · subst h
      have e₂ : [ProcEvent.osRemoveAll (p.filepathJoin p.config.WorkDir req.AssetID)].filter
          (fun ev => !ev.isDirCall) = [] := rfl
      rw [e₂]
      simpa using hpre

/-- Calls that neither create nor delete a directory leave the directories as
they are. -/
theorem foldl_applyDir_of_no_dirCall (l : List ProcEvent)
    (h : ∀ e ∈ l, e.isDirCall = false) (dirs : List String) :
    l.foldl ProcEvent.applyDir dirs = dirs := by
  induction l generalizing dirs with
  | nil => rfl
  | cons a rest ih =>
    have ha : a.isDirCall = false := h a (by simp)
    have hrest : ∀ e ∈ rest, e.isDirCall = false := fun e he => h e (by simp [he])
    rw [List.foldl_cons, ih hrest]
    cases a <;> simp_all [ProcEvent.applyDir, ProcEvent.isDirCall]

/-- `segmentAndUpload` leaves the directories as they were, apart from the
segment directory, which it deletes whenever it created it. -/
theorem segmentAndUpload_dirs (p : MediaProcessor) (ctx : Context) (input flowID : String)
    (metadata : MediaMetadata) (dirs : List String) :
    (segmentAndUpload p ctx input flowID metadata).1.foldl ProcEvent.applyDir dirs = dirs ∨
    (segmentAndUpload p ctx input flowID metadata).1.foldl ProcEvent.applyDir dirs =
      dirs.filter (fun d => d ≠ p.filepathJoin p.config.WorkDir "segments") := by
  have hloop : ∀ segs, ∀ e ∈ (segmentLoop p ctx flowID 0 segs).1, e.isDirCall = false := by
    intro segs e he
    have := segmentLoop_isSegmentCall p ctx flowID segs 0 e he
    cases e <;> simp_all [ProcEvent.isSegmentCall, ProcEvent.isDirCall]
  simp only [segmentAndUpload]
  split
  · left
    simp [ProcEvent.applyDir]
  · right
    have hbody : ∀ e ∈ (segmentAndUploadBody p ctx input flowID
        (p.filepathJoin p.config.WorkDir "segments")).1, e.isDirCall = false := by
      intro e he
      simp only [segmentAndUploadBody, Transcoder.Segment] at he
      split at he
      · simp at he; subst he; rfl
      · split at he
        · simp at he
          rcases he with he | he <;> (subst he; rfl)
        · simp at he
          rcases he with he | he | he
          · subst he; rfl
          · subst he; rfl
          · exact hloop _ e he
    simp only [List.foldl_append, List.foldl_cons, List.foldl_nil]
    rw [foldl_applyDir_of_no_dirCall _ hbody]
    simp [ProcEvent.applyDir]

/-- C15: for every outcome of the steps of `ProcessMedia`, no directory the run
created is left when `ProcessMedia` returns: the asset's working directory and
the segment directory are each deleted by `os.RemoveAll` after their last
creation, on the success path and on every failure path. -/
theorem ProcessMedia_leaves_no_directory (p : MediaProcessor) (ctx : Context)
    (req : ProcessRequest) :
    dirsLeft (ProcessMedia p ctx req).1 = [] := by
  have tool : ∀ l : List ProcEvent, (∀ e ∈ l, e.isToolCall = true) →
      ∀ dirs, l.foldl ProcEvent.applyDir dirs = dirs := by
    intro l hl dirs
    apply foldl_applyDir_of_no_dirCall
    intro e he
    have := hl e he
    cases e <;> simp_all [ProcEvent.isToolCall, ProcEvent.isDirCall]
  have hE := tool _ (Extract_isToolCall p req.SourcePath)
  have hT := tool _ (generateThumbnails_isToolCall p req.SourcePath
    (p.filepathJoin p.config.WorkDir req.AssetID))
  have hP := tool _ (createProxiesLoop_isToolCall p ctx req.SourcePath
    (p.filepathJoin p.config.WorkDir req.AssetID) p.config.ProxyFormats 0 [])
  simp only [dirsLeft, ProcessMedia, ProcessMediaBody]
  split
  · simp [ProcEvent.applyDir]
  · split
    · simp [List.foldl_append, ProcEvent.applyDir, hE]
    · split
      · simp [List.foldl_append, ProcEvent.applyDir, hE, hT]
      · split
        · simp only [createProxies] at *
          simp [List.foldl_append, ProcEvent.applyDir, hE, hT, hP]
        · rename_i metadata _ _ _ _ _ _ _
          have hS := segmentAndUpload_dirs p ctx req.SourcePath req.FlowID metadata
            [p.filepathJoin p.config.WorkDir req.AssetID]
          simp only [createProxies] at *
          split <;>
          · simp only [List.foldl_append, List.foldl_cons, List.foldl_nil, ProcEvent.applyDir,
              hE, hT, hP]
            rcases hS with hS | hS <;> rw [hS] <;> simp

/-- C14 when the transcoder fails on the second of three renditions. -/
theorem createProxies_failure_is_fatal_witness :
    (ProcessMedia (proxyFailsAt 1) Context.background demoProcessRequest).2.isSome = true ∧
      (ProcessMedia (proxyFailsAt 1) Context.background demoProcessRequest).1.filter
        ProcEvent.isSegmentCall = [] ∧
      (ProcessMedia (proxyFailsAt 1) Context.background demoProcessRequest).1.filter
        ProcEvent.isSegmenterRun = [] :=
  have h := createProxies_failure_is_fatal (proxyFailsAt 1) Context.background
    demoProcessRequest 1
    { Name := "mid", Width := 1280, Height := 720, Bitrate := "2M", Codec := "h264" }
    (GoError.errorString "exit status 1") (by decide)
    (by
      intro j f hj hf
      have hj0 : j = 0 := by omega
      subst hj0
      simp [proxyFailsAt] at hf
      subst hf
      decide)
    (by decide)
  ⟨h.2.2.2.2.1, h.2.2.2.2.2.1, h.2.2.2.2.2.2.2.2.1⟩

/-- C16 fails on the code: the runs for the assets "asset-1" and "asset-2"
under one configuration both create the directory "/work/segments", both have
the segmenter write its chunks into it, and both delete it. -/
theorem ProcessMedia_segment_directory_shared :
    demoProcessRequest.AssetID ≠ otherProcessRequest.AssetID ∧
    (ProcEvent.osMkdirAll "/work/segments" none ∈
        (ProcessMedia (demoProcessor 60 ["segment_0000.ts"]) Context.background
          demoProcessRequest).1 ∧
     ProcEvent.osMkdirAll "/work/segments" none ∈
        (ProcessMedia (demoProcessor 60 ["segment_0000.ts"]) Context.background
          otherProcessRequest).1) ∧
    (ProcEvent.cmdRun "ffmpeg"
        ["-i", "demo.mov", "-c", "copy", "-f", "segment", "-segment_time", "60",
         "-reset_timestamps", "1", "/work/segments/segment_%04d.ts"] none ∈
        (ProcessMedia (demoProcessor 60 ["segment_0000.ts"]) Context.background
          demoProcessRequest).1 ∧
     ProcEvent.cmdRun "ffmpeg"
        ["-i", "other.mov", "-c", "copy", "-f", "segment", "-segment_time", "60",
         "-reset_timestamps", "1", "/work/segments/segment_%04d.ts"] none ∈
        (ProcessMedia (demoProcessor 60 ["segment_0000.ts"]) Context.background
          otherProcessRequest).1) ∧
    (ProcEvent.osRemoveAll "/work/segments" ∈
        (ProcessMedia (demoProcessor 60 ["segment_0000.ts"]) Context.background
          demoProcessRequest).1 ∧
     ProcEvent.osRemoveAll "/work/segments" ∈
        (ProcessMedia (demoProcessor 60 ["segment_0000.ts"]) Context.background
          otherProcessRequest).1) := by
  decide

/-! ## The pipeline run: stage failure, detachment, identifiers -/

/-- C17, as stated, fails: when the processing stage fails and the store
rejects the status write `failed` and the diagnostic write, the statuses
persisted are `ingesting` and `processing` and no diagnostic is stored: the
asset is not transitioned to `failed`. -/
theorem processIngest_stage_failure_store_rejects :
    Event.processMedia
        { AssetID := "asset-1", SourcePath := "demo.mov", FlowID := "flow-id" } []
        (some (GoError.errorString "failed to extract metadata: ffprobe failed")) ∈
      processIngest stageFailStoreRejectsService Context.background "asset-1" demoRequest ∧
    persistedStatuses (processIngest stageFailStoreRejectsService Context.background
      "asset-1" demoRequest) = ["ingesting", "processing"] ∧
    persistedDiagnostics (processIngest stageFailStoreRejectsService Context.background
      "asset-1" demoRequest) = [] := by
  decide

/-- On a failure of the processing stage the last status persisted is `failed`
exactly when the store accepts the status write `failed`. -/
theorem processIngest_stage_failure_last_persisted (s : Service) (ctx : Context)
    (assetID : String) (req : IngestRequest) (r : ProcessRequest) (calls : List ProcEvent)
    (e : GoError)
    (hfail : Event.processMedia r calls (some e) ∈ processIngest s ctx assetID req) :
    (persistedStatuses (processIngest s ctx assetID req)).getLast? = some "failed" ↔
      (s.dbUpdateAssetStatus ctx assetID "failed").isNone = true := by
  simp only [processIngest, handleIngestError, updateAssetStatus] at hfail ⊢
  repeat' split
  all_goals
    simp_all [persistedStatuses, Event.statusPersisted, StateIngesting, StateProcessing,
      StateReady, StateFailed]

/-- On a failure of the processing stage the diagnostic is stored exactly when
the store accepts the diagnostic write. -/
theorem processIngest_stage_failure_persisted_diagnostic (s : Service) (ctx : Context)
    (assetID : String) (req : IngestRequest) (r : ProcessRequest) (calls : List ProcEvent)
    (e : GoError)
    (hfail : Event.processMedia r calls (some e) ∈ processIngest s ctx assetID req) :
    persistedDiagnostics (processIngest s ctx assetID req) =
      if (s.dbUpdateAssetErrorInfo ctx assetID
          { error_message := "failed to process media", error_detail := e.Error,
            error_time := s.timeNow }).isNone
      then [{ error_message := "failed to process media", error_detail := e.Error,
              error_time := s.timeNow }]
      else [] := by
  simp only [processIngest, handleIngestError, updateAssetStatus] at hfail ⊢
  repeat' split
  all_goals simp_all [persistedDiagnostics, Event.diagnosticPersisted]

/-- C17, amended: in every pipeline run in which the processing stage is
invoked (so create-source, create-flow and the identifier write succeeded) and
fails with cause `e`, the statuses written are `ingesting`, `processing` and
then `failed`, and the last status persisted is `failed` exactly when the
store accepts that write; the one diagnostic the run hands to the store has
the message of the processing stage, "failed to process media", and the text
of `e` as its detail, and it is stored exactly when the store accepts the
diagnostic write; status `ready` is never written. -/
theorem processIngest_stage_failure (s : Service) (ctx : Context) (assetID : String)
    (req : IngestRequest) (r : ProcessRequest) (calls : List ProcEvent) (e : GoError)
    (hfail : Event.processMedia r calls (some e) ∈ processIngest s ctx assetID req) :
    statusWrites (processIngest s ctx assetID req) = ["ingesting", "processing", "failed"] ∧
      ((persistedStatuses (processIngest s ctx assetID req)).filter isTerminal =
        if (s.dbUpdateAssetStatus ctx assetID "failed").isNone then ["failed"] else []) ∧
      diagnostics (processIngest s ctx assetID req) =
        [{ error_message := "failed to process media", error_detail := e.Error,
           error_time := s.timeNow }] ∧
      "ready" ∉ statusWrites (processIngest s ctx assetID req) ∧
      (∃ sourceID flowID : String,
        Event.dbUpdateAssetTAMSInfo assetID sourceID flowID none ∈
          processIngest s ctx assetID req ∧
        r = { AssetID := assetID, SourcePath := req.SourcePath, FlowID := flowID }) ∧
      (persistedDiagnostics (processIngest s ctx assetID req) =
        if (s.dbUpdateAssetErrorInfo ctx assetID
            { error_message := "failed to process media", error_detail := e.Error,
              error_time := s.timeNow }).isNone
        then [{ error_message := "failed to process media", error_detail := e.Error,
                error_time := s.timeNow }]
        else []) ∧
      ((persistedStatuses (processIngest s ctx assetID req)).getLast? = some "failed" ↔
        (s.dbUpdateAssetStatus ctx assetID "failed").isNone = true) := by
  have hold : statusWrites (processIngest s ctx assetID req) =
        ["ingesting", "processing", "failed"] ∧
      ((persistedStatuses (processIngest s ctx assetID req)).filter isTerminal =
        if (s.dbUpdateAssetStatus ctx assetID "failed").isNone then ["failed"] else []) ∧
      diagnostics (processIngest s ctx assetID req) =
        [{ error_message := "failed to process media", error_detail := e.Error,
           error_time := s.timeNow }] ∧
      "ready" ∉ statusWrites (processIngest s ctx assetID req) ∧
      (∃ sourceID flowID : String,
        Event.dbUpdateAssetTAMSInfo assetID sourceID flowID none ∈
          processIngest s ctx assetID req ∧
        r = { AssetID := assetID, SourcePath := req.SourcePath, FlowID := flowID }) := by
    simp only [processIngest, handleIngestError, updateAssetStatus] at hfail ⊢
    repeat' split
    all_goals
      simp_all [statusWrites, persistedStatuses, diagnostics,
        Event.statusWritten, Event.statusPersisted, Event.diagnostic,
        isTerminal, StateIngesting, StateProcessing, StateReady, StateFailed]
  obtain ⟨a, b, c, d, f⟩ := hold
  exact ⟨a, b, c, d, f,
    processIngest_stage_failure_persisted_diagnostic s ctx assetID req r calls e hfail,
    processIngest_stage_failure_last_persisted s ctx assetID req r calls e hfail⟩

/-- C17, amended, at the demo request, with a processing stage that fails. -/
theorem processIngest_stage_failure_witness :
    Event.processMedia
        { AssetID := "asset-1", SourcePath := "demo.mov", FlowID := "flow-id" } []
        (some (GoError.errorString "failed to extract metadata: ffprobe failed")) ∈
      processIngest stageFailService Context.background "asset-1" demoRequest ∧
    statusWrites (processIngest stageFailService Context.background "asset-1" demoRequest) =
      ["ingesting", "processing", "failed"] :=
  have h : Event.processMedia
        { AssetID := "asset-1", SourcePath := "demo.mov", FlowID := "flow-id" } []
        (some (GoError.errorString "failed to extract metadata: ffprobe failed")) ∈
      processIngest stageFailService Context.background "asset-1" demoRequest := by decide
  ⟨h, (processIngest_stage_failure stageFailService Context.background "asset-1"
    demoRequest _ _ _ h).1⟩

/-- C18: for every request and every two caller contexts for which the
create-asset call succeeds, `IngestAsset` schedules exactly one pipeline run in
each case, with `context.Background()`, the identifier of the asset it returns
and the whole request; the context and the request handed to the run are the
same for both callers and do not depend on the caller's context. -/
theorem ingestAsset_run_detached_from_caller (s : Service) (ctx₁ ctx₂ : Context)
    (req : IngestRequest)
    (h₁ : ∀ e ∈ (IngestAsset s ctx₁ req).1, e.createdAsset.isSome → e.succeeded = true)
    (h₂ : ∀ e ∈ (IngestAsset s ctx₂ req).1, e.createdAsset.isSome → e.succeeded = true) :
    (∃ a₁ a₂ : Asset, (IngestAsset s ctx₁ req).2 = .ok a₁ ∧
        (IngestAsset s ctx₂ req).2 = .ok a₂ ∧
        scheduledRuns (IngestAsset s ctx₁ req).1 = [(Context.background, a₁.ID, req)] ∧
        scheduledRuns (IngestAsset s ctx₂ req).1 = [(Context.background, a₂.ID, req)]) ∧
      (scheduledRuns (IngestAsset s ctx₁ req).1).map (fun run => (run.1, run.2.2)) =
        (scheduledRuns (IngestAsset s ctx₂ req).1).map (fun run => (run.1, run.2.2)) := by
  rcases e₁ : s.dbCreateAsset ctx₁
      { ID := "", Title := req.Title, Description := req.Description, Type_ := req.Type_,
        Status := StateNew, Metadata := req.Metadata, CreatedBy := req.UserID } with err | id₁
  · simp only [IngestAsset, e₁] at h₁
    simp [Event.createdAsset, Event.succeeded] at h₁
  · rcases e₂ : s.dbCreateAsset ctx₂
        { ID := "", Title := req.Title, Description := req.Description, Type_ := req.Type_,
          Status := StateNew, Metadata := req.Metadata, CreatedBy := req.UserID } with err | id₂
    · simp only [IngestAsset, e₂] at h₂
      simp [Event.createdAsset, Event.succeeded] at h₂
    · simp only [IngestAsset, e₁, e₂]
      exact ⟨⟨_, _, rfl, rfl, rfl, rfl⟩, rfl⟩

/-- C18 at the demo request, for a live caller context and a cancelled one. -/
theorem ingestAsset_run_detached_from_caller_witness :
    ((∀ e ∈ (IngestAsset okService (Context.request false) demoRequest).1,
        e.createdAsset.isSome → e.succeeded = true) ∧
     (∀ e ∈ (IngestAsset okService (Context.request true) demoRequest).1,
        e.createdAsset.isSome → e.succeeded = true)) ∧
    (scheduledRuns (IngestAsset okService (Context.request false) demoRequest).1).map
        (fun run => (run.1, run.2.2)) =
      (scheduledRuns (IngestAsset okService (Context.request true) demoRequest).1).map
        (fun run => (run.1, run.2.2)) :=
  have h : (∀ e ∈ (IngestAsset okService (Context.request false) demoRequest).1,
        e.createdAsset.isSome → e.succeeded = true) ∧
     (∀ e ∈ (IngestAsset okService (Context.request true) demoRequest).1,
        e.createdAsset.isSome → e.succeeded = true) := by decide
  ⟨h, (ingestAsset_run_detached_from_caller okService (Context.request false)
    (Context.request true) demoRequest h.1 h.2).2⟩

/-- C19: in every pipeline run, whatever the outcomes of the collaborators, the
source and flow identifiers are written to the store at most once. -/
theorem processIngest_identifiers_written_at_most_once (s : Service) (ctx : Context)
    (assetID : String) (req : IngestRequest) :
    (tamsInfoWrites (processIngest s ctx assetID req)).length ≤ 1 := by
  simp only [processIngest, handleIngestError, updateAssetStatus]
  repeat' split
  all_goals simp [tamsInfoWrites, Event.tamsInfoWritten]

/-! ## `buildMetadataQuery` -/

/-- The rendering of no piece has no character. -/
theorem renderSql_data_nil : (renderSql []).data = [] := rfl

end TamMam
